import Mathlib

/-!
# WebNavigation API helpers and the FFmpeg CDM video decoder

A shallow embedding of

* `chrome/browser/extensions/api/web_navigation/web_navigation_api_helpers.cc`
* `webkit/media/crypto/ppapi/ffmpeg_cdm_video_decoder.h`

Machine integers are mathematical integers with explicit wrap-around, a `double` is
an IEEE-754 binary64 value with round-to-nearest-even arithmetic, `base::Value` trees
are an inductive type, and the extension event router is a log of the events that
were broadcast, threaded through `DispatchEvent`.
-/

namespace extensions
namespace web_navigation_api_helpers

/-! ## Integer conversions -/

/-- The conversion `static_cast<int>(x)` of a 64-bit value to the 32-bit `int`:
keep the low 32 bits and read them as a signed two's-complement number. -/
def static_cast_int (x : Int) : Int :=
  let low := x % 4294967296
  if low < 2147483648 then low else low - 4294967296

/-- Source lines 59-61:
`int GetFrameId(bool is_main_frame, int64 frame_id)`
returns `is_main_frame ? 0 : static_cast<int>(frame_id)`. -/
def GetFrameId (is_main_frame : Bool) (frame_id : Int) : Int :=
  if is_main_frame then 0 else static_cast_int frame_id

/-! ## Doubles

The C++ type `double` is the IEEE-754 binary64 format: a finite value is
`± m * 2 ^ e` with a significand `m < 2 ^ 53` and an exponent `-1074 ≤ e ≤ 971`, and
every operation rounds its exact result to the nearest such value, ties going to the
even significand. -/

/-- A value of the C++ type `double`: a finite value with its sign bit and its
magnitude (so that `+0.0` and `-0.0` differ), an infinity with its sign bit, or a
NaN (NaNs are not told apart). -/
inductive Double where
  | finite (negative : Bool) (magnitude : ℚ)
  | infinity (negative : Bool)
  | nan
deriving DecidableEq

/-- The magnitudes of the finite doubles: `m * 2 ^ e` with `m < 2 ^ 53` and
`-1074 ≤ e ≤ 971`. -/
def Double.IsMagnitude (x : ℚ) : Prop :=
  ∃ (m : ℕ) (e : ℤ), m < 2 ^ 53 ∧ -1074 ≤ e ∧ e ≤ 971 ∧ x = m * 2 ^ e

/-- Rounding of a rational to the nearest integer, a tie going to the even one. -/
def roundHalfEven (x : ℚ) : ℤ :=
  let f := ⌊x⌋
  if x - f < 1 / 2 then f
  else if 1 / 2 < x - f then f + 1
  else if f % 2 = 0 then f else f + 1

/-- The exponent of the last significand bit of the doubles around `q > 0`: 52 below
the binade `⌊log₂ q⌋` of `q`, and -1074 in the subnormal range. -/
def Double.ulpExponent (q : ℚ) : ℤ :=
  max (Int.log 2 q - 52) (-1074)

/-- Rounding of a magnitude `q ≥ 0` to 53 significant bits (fewer in the subnormal
range), to nearest with ties to even, before the overflow test. -/
def Double.roundMagnitude (q : ℚ) : ℚ :=
  let e := Double.ulpExponent q
  roundHalfEven (q / 2 ^ e) * 2 ^ e

/-- IEEE-754 rounding of the exact result `± q` to a double, in the default mode
round-to-nearest-even: a result that rounds to `2 ^ 1024` or more overflows to the
infinity of its sign. -/
def Double.round (negative : Bool) (q : ℚ) : Double :=
  if 2 ^ 1024 ≤ Double.roundMagnitude q then Double.infinity negative
  else Double.finite negative (Double.roundMagnitude q)

/-- The product `a * b` of two doubles: NaN if an operand is NaN or for
`infinity * 0`, otherwise the exact product rounded, with the exclusive or of the
sign bits. -/
def Double.mul : Double → Double → Double
  | Double.nan, _ => Double.nan
  | _, Double.nan => Double.nan
  | Double.infinity s, Double.infinity t => Double.infinity (xor s t)
  | Double.infinity s, Double.finite t m =>
    if m = 0 then Double.nan else Double.infinity (xor s t)
  | Double.finite s m, Double.infinity t =>
    if m = 0 then Double.nan else Double.infinity (xor s t)
  | Double.finite s m, Double.finite t n => Double.round (xor s t) (m * n)

/-- The conversion of an integer to `double`, as for the literal in `1000 * x`:
the nearest double. -/
def Double.ofInt (i : ℤ) : Double :=
  Double.round (decide (i < 0)) |(i : ℚ)|

/-! ## base::Value, base::DictionaryValue, base::ListValue

`base/values.h` is not among the sources; the value tree is modelled as far as the
helpers use it. -/

/-- Modelled from the spec: `base::Value` (base/values.h is not among the sources),
the "structuredPayload" of the event boundary. Only the kinds of value the helpers
create occur. -/
inductive Value where
  | integer (i : Int)
  | double (d : Double)
  | string (s : String)
  | list (l : List Value)
  | dictionary (d : List (String × Value))

/-- Modelled from the spec: `base::ListValue` (base/values.h is not among the
sources), the argument list handed to the sink: the values in order. -/
abbrev ListValue := List Value

/-- Modelled from the spec: `base::DictionaryValue` (base/values.h is not among the
sources), a "mapping of named fields": the entries, at most one per key. -/
abbrev DictionaryValue := List (String × Value)

/-- Modelled from the spec: the call `dict->Set(key, value)` (base/values.cc is not
among the sources) on a "mapping of named fields", for a key that is a single path
component: the entry of `key` is replaced, or added when there is none. -/
def DictionaryValue.Set : DictionaryValue → String → Value → DictionaryValue
  | [], key, v => [(key, v)]
  | (k, x) :: rest, key, v =>
    if k = key then (key, v) :: rest else (k, x) :: DictionaryValue.Set rest key v

/-- Modelled from the spec: the call `dict->Get(key, &out)` (base/values.cc is not
among the sources) on a "mapping of named fields": the value stored under `key`,
if any. -/
def DictionaryValue.Get : DictionaryValue → String → Option Value
  | [], _ => none
  | (k, x) :: rest, key => if k = key then some x else DictionaryValue.Get rest key

/-- Modelled from the spec: the call `dict->SetInteger(key, i)` (base/values.cc is not
among the sources), `Set` with an integer value. -/
def DictionaryValue.SetInteger (d : DictionaryValue) (key : String) (i : Int) : DictionaryValue :=
  DictionaryValue.Set d key (Value.integer i)

/-- Modelled from the spec: the call `dict->SetDouble(key, x)` (base/values.cc is not
among the sources), `Set` with a double value. -/
def DictionaryValue.SetDouble (d : DictionaryValue) (key : String) (x : Double) :
    DictionaryValue :=
  DictionaryValue.Set d key (Value.double x)

/-- Modelled from the spec: the call `dict->SetString(key, s)` (base/values.cc is not
among the sources), `Set` with a string value. -/
def DictionaryValue.SetString (d : DictionaryValue) (key : String) (s : String) : DictionaryValue :=
  DictionaryValue.Set d key (Value.string s)

/-- Modelled from the spec: the call `list->Append(value)` (base/values.cc is not
among the sources): the value becomes the last element. -/
def ListValue.Append (l : ListValue) (v : Value) : ListValue :=
  l ++ [v]

/-! ## Constants declared outside the file

`web_navigation_api_constants.h`, the generated `api/web_navigation.h` and
`page_transition_types.h` are not among the sources, so the helpers take their
constants and functions as parameters. -/

/-- The dictionary keys of `web_navigation_api_constants` (namespace `keys`). -/
structure Keys where
  kTabIdKey : String
  kUrlKey : String
  kProcessIdKey : String
  kFrameIdKey : String
  kParentFrameIdKey : String
  kTimeStampKey : String
  kTransitionTypeKey : String
  kTransitionQualifiersKey : String
  kSourceTabIdKey : String
  kSourceProcessIdKey : String
  kSourceFrameIdKey : String
  kErrorKey : String
  kReplacedTabIdKey : String

/-- All thirteen keys. -/
def Keys.all (k : Keys) : List String :=
  [k.kTabIdKey, k.kUrlKey, k.kProcessIdKey, k.kFrameIdKey, k.kParentFrameIdKey,
   k.kTimeStampKey, k.kTransitionTypeKey, k.kTransitionQualifiersKey, k.kSourceTabIdKey,
   k.kSourceProcessIdKey, k.kSourceFrameIdKey, k.kErrorKey, k.kReplacedTabIdKey]

/-- The keys name thirteen different fields, and each is a single path component
(it has no dot, so that `Set` does not descend into a nested dictionary). -/
def Keys.WellFormed (k : Keys) : Prop :=
  k.all.Nodup ∧ ∀ key ∈ k.all, '.' ∉ key.toList

instance (k : Keys) : Decidable k.WellFormed := by
  unfold Keys.WellFormed; infer_instance

/-- Sample keys: the field names under which the WebNavigation API documents its
event details. -/
def webNavigationKeys : Keys where
  kTabIdKey := "tabId"
  kUrlKey := "url"
  kProcessIdKey := "processId"
  kFrameIdKey := "frameId"
  kParentFrameIdKey := "parentFrameId"
  kTimeStampKey := "timeStamp"
  kTransitionTypeKey := "transitionType"
  kTransitionQualifiersKey := "transitionQualifiers"
  kSourceTabIdKey := "sourceTabId"
  kSourceProcessIdKey := "sourceProcessId"
  kSourceFrameIdKey := "sourceFrameId"
  kErrorKey := "error"
  kReplacedTabIdKey := "replacedTabId"

/-- The `kEventName` constants of the generated `api::web_navigation` event classes. -/
structure EventNames where
  OnBeforeNavigate : String
  OnDOMContentLoaded : String
  OnCompleted : String
  OnCreatedNavigationTarget : String
  OnErrorOccurred : String
  OnTabReplaced : String

/-- What the helpers use of `content/public/common/page_transition_types.h`:
a `content::PageTransition` is its unsigned numeric value. -/
structure PageTransitionTypes where
  PAGE_TRANSITION_AUTO_TOPLEVEL : Nat
  PAGE_TRANSITION_CLIENT_REDIRECT : Nat
  PAGE_TRANSITION_SERVER_REDIRECT : Nat
  PAGE_TRANSITION_FORWARD_BACK : Nat
  PAGE_TRANSITION_FROM_ADDRESS_BAR : Nat
  PageTransitionStripQualifier : Nat → Nat
  PageTransitionGetCoreTransitionString : Nat → String

/-- The core transition strings of a sample header: the eleven core types. A value
that is no core type gets the empty string here. -/
def sampleCoreTransitionString (t : Nat) : String :=
  match t % 256 with
  | 0 => "link"
  | 1 => "typed"
  | 2 => "auto_bookmark"
  | 3 => "auto_subframe"
  | 4 => "manual_subframe"
  | 5 => "generated"
  | 6 => "auto_toplevel"
  | 7 => "form_submit"
  | 8 => "reload"
  | 9 => "keyword"
  | 10 => "keyword_generated"
  | _ => ""

/-- A sample header: core type in the low byte, `AUTO_TOPLEVEL = 6`, the qualifiers
`FORWARD_BACK = 0x01000000`, `FROM_ADDRESS_BAR = 0x02000000`,
`CLIENT_REDIRECT = 0x40000000` and `SERVER_REDIRECT = 0x80000000`. -/
def samplePageTransitionTypes : PageTransitionTypes where
  PAGE_TRANSITION_AUTO_TOPLEVEL := 6
  PAGE_TRANSITION_CLIENT_REDIRECT := 0x40000000
  PAGE_TRANSITION_SERVER_REDIRECT := 0x80000000
  PAGE_TRANSITION_FORWARD_BACK := 0x01000000
  PAGE_TRANSITION_FROM_ADDRESS_BAR := 0x02000000
  PageTransitionStripQualifier := fun t => t % 256
  PageTransitionGetCoreTransitionString := sampleCoreTransitionString

/-! ## The browser objects the helpers talk to -/

/-- Modelled from the spec: a `base::Time` (base/time/time.h is not among the
sources), the "wall-clock timestamp", seen through `ToDoubleT()`: the seconds since
the epoch as a double. -/
structure Time where
  ToDoubleT : Double

/-- A sample time: one second after the epoch. -/
def sampleTime : Time :=
  ⟨Double.finite false 1⟩

/-- The double nearest to 0.1, which is `3602879701896397 * 2 ^ -55`. -/
def sampleTenth : Double :=
  Double.finite false (3602879701896397 / 36028797018963968)

/-- The double nearest to 1700000000.123456, which is `1782579200129453 * 2 ^ -20`. -/
def sampleClock : Double :=
  Double.finite false (1782579200129453 / 1048576)

/-- Modelled from the spec: a `GURL` (url/gurl.h is not among the sources), the
"associatedURL" of the sink, seen through the two accessors the helpers call. -/
structure GURL where
  spec : String
  possibly_invalid_spec : String
deriving DecidableEq

/-- Modelled from the spec: the default-constructed `GURL()` (url/gurl.h is not among
the sources), an "associatedURL" with empty text. -/
def GURL.empty : GURL := ⟨"", ""⟩

/-- Modelled from the spec: a `content::BrowserContext*` (its header is not among the
sources), which names the "surrounding host" an event is dispatched in. -/
structure BrowserContext where
  id : Nat
deriving DecidableEq

/-- Modelled from the spec: a non-null `Profile*` (chrome/browser/profiles/profile.h is
not among the sources), the "surrounding host" a browser context resolves to. -/
structure Profile where
  id : Nat
deriving DecidableEq

/-- Modelled from the spec: a non-null `extensions::EventRouter*`
(extensions/browser/event_router.h is not among the sources), the "generic
notification fan-out". -/
structure EventRouter where
  id : Nat
deriving DecidableEq

/-- The lookups `DispatchEvent` performs, as parameters: `Profile::FromBrowserContext`
and `ExtensionSystem::Get(profile)->event_router()`; `none` is the null pointer. -/
structure Browser where
  FromBrowserContext : BrowserContext → Option Profile
  event_router : Profile → Option EventRouter

/-- Modelled from the spec: a `content::WebContents*` (its header is not among the
sources), part of the "tab/process bookkeeping", seen through the calls made on it:
`ExtensionTabUtil::GetTabId(web_contents)`,
`web_contents->GetRenderViewHost()->GetProcess()->GetID()` and
`web_contents->GetBrowserContext()`. -/
structure WebContents where
  GetTabId : Int
  GetProcessID : Int
  GetBrowserContext : BrowserContext

/-- Modelled from the spec: an `EventFilteringInfo`
(extensions/common/event_filtering_info.h is not among the sources), which holds the
"associatedURL" of the event once one was set. -/
structure EventFilteringInfo where
  url : Option GURL := none

/-- Modelled from the spec: the call `info.SetURL(url)`
(extensions/common/event_filtering_info.cc is not among the sources), which records the
"associatedURL". -/
def EventFilteringInfo.SetURL (_info : EventFilteringInfo) (url : GURL) : EventFilteringInfo :=
  { url := some url }

/-- Modelled from the spec: an `extensions::Event` (extensions/browser/event_router.h
is not among the sources): the "topic", the "structuredPayload", and the two members
`DispatchEvent` assigns. `Event(event_name, args)` leaves these two at their defaults. -/
structure Event where
  event_name : String
  event_args : ListValue
  restrict_to_browser_context : Option Profile := none
  filter_info : EventFilteringInfo := {}

/-- Modelled from the spec: the state of the "dispatch sink" (the event routers are
not among the sources): the events broadcast so far, oldest first, each with the
router that got it. -/
abbrev Broadcasts := List (EventRouter × Event)

/-- Modelled from the spec: the call `router->BroadcastEvent(event)`
(extensions/browser/event_router.cc is not among the sources), which hands the event
"to the sink". -/
def BroadcastEvent (router : EventRouter) (event : Event) (log : Broadcasts) : Broadcasts :=
  log ++ [(router, event)]

/-! ## The helpers -/

/-- Source lines 35-38: `MilliSecondsFromTime` returns `1000 * time.ToDoubleT()`, the
product of two doubles, the literal `1000` being converted first. -/
def MilliSecondsFromTime (time : Time) : Double :=
  Double.mul (Double.ofInt 1000) time.ToDoubleT

/-- Source lines 40-55: `DispatchEvent`. -/
def DispatchEvent (env : Browser) (browser_context : BrowserContext) (event_name : String)
    (args : ListValue) (url : GURL) (log : Broadcasts) : Broadcasts :=
  let info := EventFilteringInfo.SetURL {} url
  match env.FromBrowserContext browser_context with
  | none => log
  | some profile =>
    match env.event_router profile with
    | none => log
    | some router =>
      let event : Event := { event_name := event_name, event_args := args }
      let event := { event with restrict_to_browser_context := some profile }
      let event := { event with filter_info := info }
      BroadcastEvent router event log

/-- Source lines 72-79: the dictionary `DispatchOnBeforeNavigate` fills in. -/
def DispatchOnBeforeNavigate_dict (k : Keys) (now : Time) (web_contents : WebContents)
    (render_process_id : Int) (frame_id : Int) (is_main_frame : Bool) (parent_frame_id : Int)
    (parent_is_main_frame : Bool) (validated_url : GURL) : DictionaryValue :=
  let dict : DictionaryValue := []
  let dict := DictionaryValue.SetInteger dict k.kTabIdKey web_contents.GetTabId
  let dict := DictionaryValue.SetString dict k.kUrlKey validated_url.spec
  let dict := DictionaryValue.SetInteger dict k.kProcessIdKey render_process_id
  let dict := DictionaryValue.SetInteger dict k.kFrameIdKey (GetFrameId is_main_frame frame_id)
  let dict := DictionaryValue.SetInteger dict k.kParentFrameIdKey
    (GetFrameId parent_is_main_frame parent_frame_id)
  let dict := DictionaryValue.SetDouble dict k.kTimeStampKey (MilliSecondsFromTime now)
  dict

/-- Source lines 64-86: `DispatchOnBeforeNavigate`; `now` is what `base::Time::Now()`
returns. -/
def DispatchOnBeforeNavigate (k : Keys) (names : EventNames) (env : Browser) (now : Time)
    (web_contents : WebContents) (render_process_id : Int) (frame_id : Int)
    (is_main_frame : Bool) (parent_frame_id : Int) (parent_is_main_frame : Bool)
    (validated_url : GURL) (log : Broadcasts) : Broadcasts :=
  let args : ListValue := []
  let dict := DispatchOnBeforeNavigate_dict k now web_contents render_process_id frame_id
    is_main_frame parent_frame_id parent_is_main_frame validated_url
  let args := ListValue.Append args (Value.dictionary dict)
  DispatchEvent env web_contents.GetBrowserContext names.OnBeforeNavigate args validated_url log

/-- Source lines 111-119: the qualifiers list of `DispatchOnCommitted`; a test
`transition_type & MASK` succeeds when the bitwise and is not zero. -/
def DispatchOnCommitted_qualifiers (pt : PageTransitionTypes) (transition_type : Nat) :
    ListValue :=
  let qualifiers : ListValue := []
  let qualifiers :=
    if transition_type &&& pt.PAGE_TRANSITION_CLIENT_REDIRECT ≠ 0 then
      ListValue.Append qualifiers (Value.string "client_redirect")
    else qualifiers
  let qualifiers :=
    if transition_type &&& pt.PAGE_TRANSITION_SERVER_REDIRECT ≠ 0 then
      ListValue.Append qualifiers (Value.string "server_redirect")
    else qualifiers
  let qualifiers :=
    if transition_type &&& pt.PAGE_TRANSITION_FORWARD_BACK ≠ 0 then
      ListValue.Append qualifiers (Value.string "forward_back")
    else qualifiers
  let qualifiers :=
    if transition_type &&& pt.PAGE_TRANSITION_FROM_ADDRESS_BAR ≠ 0 then
      ListValue.Append qualifiers (Value.string "from_address_bar")
    else qualifiers
  qualifiers

/-- Source lines 97-121: the dictionary `DispatchOnCommitted` fills in. -/
def DispatchOnCommitted_dict (k : Keys) (pt : PageTransitionTypes) (now : Time)
    (web_contents : WebContents) (frame_id : Int) (is_main_frame : Bool) (url : GURL)
    (transition_type : Nat) : DictionaryValue :=
  let dict : DictionaryValue := []
  let dict := DictionaryValue.SetInteger dict k.kTabIdKey web_contents.GetTabId
  let dict := DictionaryValue.SetString dict k.kUrlKey url.spec
  let dict := DictionaryValue.SetInteger dict k.kProcessIdKey web_contents.GetProcessID
  let dict := DictionaryValue.SetInteger dict k.kFrameIdKey (GetFrameId is_main_frame frame_id)
  let transition_type_string := pt.PageTransitionGetCoreTransitionString transition_type
  let transition_type_string :=
    if pt.PageTransitionStripQualifier transition_type = pt.PAGE_TRANSITION_AUTO_TOPLEVEL then
      "start_page"
    else transition_type_string
  let dict := DictionaryValue.SetString dict k.kTransitionTypeKey transition_type_string
  let qualifiers := DispatchOnCommitted_qualifiers pt transition_type
  let dict := DictionaryValue.Set dict k.kTransitionQualifiersKey (Value.list qualifiers)
  let dict := DictionaryValue.SetDouble dict k.kTimeStampKey (MilliSecondsFromTime now)
  dict

/-- Source lines 90-126: `DispatchOnCommitted`. -/
def DispatchOnCommitted (k : Keys) (pt : PageTransitionTypes) (env : Browser) (now : Time)
    (event_name : String) (web_contents : WebContents) (frame_id : Int) (is_main_frame : Bool)
    (url : GURL) (transition_type : Nat) (log : Broadcasts) : Broadcasts :=
  let args : ListValue := []
  let dict := DispatchOnCommitted_dict k pt now web_contents frame_id is_main_frame url
    transition_type
  let args := ListValue.Append args (Value.dictionary dict)
  DispatchEvent env web_contents.GetBrowserContext event_name args url log

/-- Source lines 134-141: the dictionary `DispatchOnDOMContentLoaded` fills in. -/
def DispatchOnDOMContentLoaded_dict (k : Keys) (now : Time) (web_contents : WebContents)
    (url : GURL) (is_main_frame : Bool) (frame_id : Int) : DictionaryValue :=
  let dict : DictionaryValue := []
  let dict := DictionaryValue.SetInteger dict k.kTabIdKey web_contents.GetTabId
  let dict := DictionaryValue.SetString dict k.kUrlKey url.spec
  let dict := DictionaryValue.SetInteger dict k.kProcessIdKey web_contents.GetProcessID
  let dict := DictionaryValue.SetInteger dict k.kFrameIdKey (GetFrameId is_main_frame frame_id)
  let dict := DictionaryValue.SetDouble dict k.kTimeStampKey (MilliSecondsFromTime now)
  dict

/-- Source lines 129-148: `DispatchOnDOMContentLoaded`. -/
def DispatchOnDOMContentLoaded (k : Keys) (names : EventNames) (env : Browser) (now : Time)
    (web_contents : WebContents) (url : GURL) (is_main_frame : Bool) (frame_id : Int)
    (log : Broadcasts) : Broadcasts :=
  let args : ListValue := []
  let dict := DispatchOnDOMContentLoaded_dict k now web_contents url is_main_frame frame_id
  let args := ListValue.Append args (Value.dictionary dict)
  DispatchEvent env web_contents.GetBrowserContext names.OnDOMContentLoaded args url log

/-- Source lines 156-163: the dictionary `DispatchOnCompleted` fills in. -/
def DispatchOnCompleted_dict (k : Keys) (now : Time) (web_contents : WebContents)
    (url : GURL) (is_main_frame : Bool) (frame_id : Int) : DictionaryValue :=
  let dict : DictionaryValue := []
  let dict := DictionaryValue.SetInteger dict k.kTabIdKey web_contents.GetTabId
  let dict := DictionaryValue.SetString dict k.kUrlKey url.spec
  let dict := DictionaryValue.SetInteger dict k.kProcessIdKey web_contents.GetProcessID
  let dict := DictionaryValue.SetInteger dict k.kFrameIdKey (GetFrameId is_main_frame frame_id)
  let dict := DictionaryValue.SetDouble dict k.kTimeStampKey (MilliSecondsFromTime now)
  dict

/-- Source lines 151-169: `DispatchOnCompleted`. -/
def DispatchOnCompleted (k : Keys) (names : EventNames) (env : Browser) (now : Time)
    (web_contents : WebContents) (url : GURL) (is_main_frame : Bool) (frame_id : Int)
    (log : Broadcasts) : Broadcasts :=
  let args : ListValue := []
  let dict := DispatchOnCompleted_dict k now web_contents url is_main_frame frame_id
  let args := ListValue.Append args (Value.dictionary dict)
  DispatchEvent env web_contents.GetBrowserContext names.OnCompleted args url log

/-- Source lines 187-197: the dictionary `DispatchOnCreatedNavigationTarget` fills in. -/
def DispatchOnCreatedNavigationTarget_dict (k : Keys) (now : Time) (web_contents : WebContents)
    (source_frame_id : Int) (source_frame_is_main_frame : Bool)
    (target_web_contents : WebContents) (target_url : GURL) : DictionaryValue :=
  let dict : DictionaryValue := []
  let dict := DictionaryValue.SetInteger dict k.kSourceTabIdKey web_contents.GetTabId
  let dict := DictionaryValue.SetInteger dict k.kSourceProcessIdKey web_contents.GetProcessID
  let dict := DictionaryValue.SetInteger dict k.kSourceFrameIdKey
    (GetFrameId source_frame_is_main_frame source_frame_id)
  let dict := DictionaryValue.SetString dict k.kUrlKey target_url.possibly_invalid_spec
  let dict := DictionaryValue.SetInteger dict k.kTabIdKey target_web_contents.GetTabId
  let dict := DictionaryValue.SetDouble dict k.kTimeStampKey (MilliSecondsFromTime now)
  dict

/-- Source lines 172-204: `DispatchOnCreatedNavigationTarget`. The `DCHECK` of lines
179-184 only reads browser state and is compiled out of release builds. -/
def DispatchOnCreatedNavigationTarget (k : Keys) (names : EventNames) (env : Browser)
    (now : Time) (web_contents : WebContents) (browser_context : BrowserContext)
    (source_frame_id : Int) (source_frame_is_main_frame : Bool)
    (target_web_contents : WebContents) (target_url : GURL) (log : Broadcasts) : Broadcasts :=
  let args : ListValue := []
  let dict := DispatchOnCreatedNavigationTarget_dict k now web_contents source_frame_id
    source_frame_is_main_frame target_web_contents target_url
  let args := ListValue.Append args (Value.dictionary dict)
  DispatchEvent env browser_context names.OnCreatedNavigationTarget args target_url log

/-- Source lines 214-221: the dictionary `DispatchOnErrorOccurred` fills in;
`ErrorToString` is `net::ErrorToString`. -/
def DispatchOnErrorOccurred_dict (k : Keys) (ErrorToString : Int → String) (now : Time)
    (web_contents : WebContents) (render_process_id : Int) (url : GURL) (frame_id : Int)
    (is_main_frame : Bool) (error_code : Int) : DictionaryValue :=
  let dict : DictionaryValue := []
  let dict := DictionaryValue.SetInteger dict k.kTabIdKey web_contents.GetTabId
  let dict := DictionaryValue.SetString dict k.kUrlKey url.spec
  let dict := DictionaryValue.SetInteger dict k.kProcessIdKey render_process_id
  let dict := DictionaryValue.SetInteger dict k.kFrameIdKey (GetFrameId is_main_frame frame_id)
  let dict := DictionaryValue.SetString dict k.kErrorKey (ErrorToString error_code)
  let dict := DictionaryValue.SetDouble dict k.kTimeStampKey (MilliSecondsFromTime now)
  dict

/-- Source lines 207-227: `DispatchOnErrorOccurred`. -/
def DispatchOnErrorOccurred (k : Keys) (names : EventNames) (ErrorToString : Int → String)
    (env : Browser) (now : Time) (web_contents : WebContents) (render_process_id : Int)
    (url : GURL) (frame_id : Int) (is_main_frame : Bool) (error_code : Int)
    (log : Broadcasts) : Broadcasts :=
  let args : ListValue := []
  let dict := DispatchOnErrorOccurred_dict k ErrorToString now web_contents render_process_id
    url frame_id is_main_frame error_code
  let args := ListValue.Append args (Value.dictionary dict)
  DispatchEvent env web_contents.GetBrowserContext names.OnErrorOccurred args url log

/-- Source lines 235-241: the dictionary `DispatchOnTabReplaced` fills in. -/
def DispatchOnTabReplaced_dict (k : Keys) (now : Time) (old_web_contents : WebContents)
    (new_web_contents : WebContents) : DictionaryValue :=
  let dict : DictionaryValue := []
  let dict := DictionaryValue.SetInteger dict k.kReplacedTabIdKey old_web_contents.GetTabId
  let dict := DictionaryValue.SetInteger dict k.kTabIdKey new_web_contents.GetTabId
  let dict := DictionaryValue.SetDouble dict k.kTimeStampKey (MilliSecondsFromTime now)
  dict

/-- Source lines 230-248: `DispatchOnTabReplaced`. -/
def DispatchOnTabReplaced (k : Keys) (names : EventNames) (env : Browser) (now : Time)
    (old_web_contents : WebContents) (browser_context : BrowserContext)
    (new_web_contents : WebContents) (log : Broadcasts) : Broadcasts :=
  let args : ListValue := []
  let dict := DispatchOnTabReplaced_dict k now old_web_contents new_web_contents
  let args := ListValue.Append args (Value.dictionary dict)
  DispatchEvent env browser_context names.OnTabReplaced args GURL.empty log

end web_navigation_api_helpers
end extensions

namespace webkit_media

/-! ## The FFmpeg CDM video decoder

Of the decoder only the class declaration `ffmpeg_cdm_video_decoder.h` is among the
sources; the bodies of `Initialize` and `CopyAvFrameTo` follow the specification, and
`IsValidOutputConfig` is a parameter. -/

/-- Modelled from the spec: the session state, "one of Uninitialized, Initialized,
Error" (the implementation file ffmpeg_cdm_video_decoder.cc is not among the sources). -/
inductive SessionState where
  | Uninitialized
  | Initialized
  | Error
deriving DecidableEq

/-- Modelled from the spec: a `cdm::VideoFormat`, the "pixel format", by its
enumerator value (content_decryption_module.h is not among the sources). -/
abbrev VideoFormat := Nat

/-- Modelled from the spec: a `cdm::Size`, the "(coded width, coded height)" of a
configuration (content_decryption_module.h is not among the sources). -/
structure Size where
  width : Int
  height : Int
deriving DecidableEq

/-- Modelled from the spec: the DecoderConfig, "codec identifier, coded width, coded
height, requested output pixel format, opaque codec-specific extra data blob"
(content_decryption_module.h, which declares cdm::VideoDecoderConfig, is not among the sources). -/
structure VideoDecoderConfig where
  codec : Nat
  coded_size : Size
  format : VideoFormat
  extra_data : List Nat

/-- Modelled from the spec: the decoder adapter, which "owns the decode session's
lifecycle"; `state` is the session state, of which the header's flag `is_initialized_`
records whether it is Initialized, and `config` the accepted configuration
(ffmpeg_cdm_video_decoder.cc is not among the sources). -/
structure FFmpegCdmVideoDecoder where
  state : SessionState := SessionState.Uninitialized
  config : Option VideoDecoderConfig := none

/-- Header line 31: `is_initialized()` returns `is_initialized_`. -/
def FFmpegCdmVideoDecoder.is_initialized (self : FFmpegCdmVideoDecoder) : Bool :=
  decide (self.state = SessionState.Initialized)

/-- Modelled from the spec: `Initialize(config) -> bool` of section 4.1
(ffmpeg_cdm_video_decoder.cc is not among the sources). It "validates that
config.requestedOutputFormat combined with (coded width, coded height) is one of the
adapter's supported output configurations; rejects (returns false, state → Error)
otherwise. On acceptance, constructs and configures the Decoding Engine Session with
the codec identifier and extra-data blob; session configuration failure also yields
false and state → Error. On success, state → Initialized." The predicate
`IsValidOutputConfig` and the engine's `configure` are parameters. -/
def FFmpegCdmVideoDecoder.Initialize (IsValidOutputConfig : VideoFormat → Size → Bool)
    (configure : Nat → List Nat → Bool) (self : FFmpegCdmVideoDecoder)
    (config : VideoDecoderConfig) : Bool × FFmpegCdmVideoDecoder :=
  if IsValidOutputConfig config.format config.coded_size = false then
    (false, { self with state := SessionState.Error })
  else if configure config.codec config.extra_data = false then
    (false, { self with state := SessionState.Error })
  else
    (true, { state := SessionState.Initialized, config := some config })

/-- Modelled from the spec: one plane of a picture, "buffer pointer + stride in bytes"
(the plane accessors of cdm::VideoFrame and AVFrame are not among the sources). -/
structure Plane where
  data : List Nat
  stride : Nat

/-- Modelled from the spec: the engine's decoded picture `av_frame_`, which exposes
"format, dimensions, per-plane data pointers and strides, and the timestamp"
(AVFrame is only forward-declared in the header). -/
structure AVFrame where
  format : VideoFormat
  width : Nat
  height : Nat
  planes : List Plane
  timestamp : Int

/-- Modelled from the spec: the DecodedFrame handed to the host, "pixel format, width,
height, for each plane: buffer pointer + stride in bytes, presentation timestamp"
(cdm::VideoFrame is declared in content_decryption_module.h, not among the sources). -/
structure VideoFrame where
  format : VideoFormat
  width : Nat
  height : Nat
  planes : List Plane
  timestamp : Int

/-- Modelled from the spec: the Frame Buffer Allocator contract,
"allocate(format, width, height) -> ownedBuffer | failure"; the buffer comes as the
planes of the frame, each with the stride the allocator requires (cdm::Allocator is
declared in content_decryption_module.h, not among the sources). -/
abbrev Allocator := VideoFormat → Nat → Nat → Option (List Plane)

/-- Modelled from the spec: the supported-format table as far as the copy needs it:
for a format and a plane index, the "tight per-row byte width" at a picture width and
the number of rows at a picture height (the table is not among the sources). -/
structure PlaneLayout where
  row_bytes : VideoFormat → Nat → Nat → Nat
  rows : VideoFormat → Nat → Nat → Nat

/-- Modelled from the spec: the copy of one row, `n` bytes from `source` at
`source_offset` to `target` at `target_offset`; it fails when either range leaves
its buffer (the copy loop of ffmpeg_cdm_video_decoder.cc is not among the sources). -/
def CopyRow (source : List Nat) (source_offset : Nat) (target : List Nat)
    (target_offset n : Nat) : Option (List Nat) :=
  if source_offset + n ≤ source.length ∧ target_offset + n ≤ target.length then
    some (target.take target_offset ++ (source.drop source_offset).take n ++
      target.drop (target_offset + n))
  else none

/-- Modelled from the spec: the rows `row`, `row + 1`, ... (`remaining` of them) of a
plane, copied one after the other, each at its own offset in the source and in the
target: the strides "must be reconciled row-by-row, not assumed equal"
(ffmpeg_cdm_video_decoder.cc is not among the sources). -/
def CopyRows (source : List Nat) (source_stride target_stride copy_bytes_per_row : Nat) :
    Nat → Nat → List Nat → Option (List Nat)
  | 0, _, target => some target
  | remaining + 1, row, target =>
    match CopyRow source (row * source_stride) target (row * target_stride)
        copy_bytes_per_row with
    | none => none
    | some target' =>
      CopyRows source source_stride target_stride copy_bytes_per_row remaining (row + 1) target'

/-- Modelled from the spec: the copy of a plane, "honoring the destination's required
stride" (ffmpeg_cdm_video_decoder.cc is not among the sources). -/
def CopyPlane (source : List Nat) (source_stride target_stride rows copy_bytes_per_row : Nat)
    (target : List Nat) : Option (List Nat) :=
  CopyRows source source_stride target_stride copy_bytes_per_row rows 0 target

/-- Modelled from the spec: "copy each plane of the engine's decoded picture into the
allocated frame", from plane `index` on; it fails when a plane copy fails or the two
frames differ in their number of planes (ffmpeg_cdm_video_decoder.cc is not among the sources). -/
def CopyPlanes (layout : PlaneLayout) (format : VideoFormat) (width height : Nat) :
    Nat → List Plane → List Plane → Option (List Plane)
  | _, [], [] => some []
  | index, s :: sources, t :: targets =>
    match CopyPlane s.data s.stride t.stride (layout.rows format index height)
        (layout.row_bytes format index width) t.data with
    | none => none
    | some data =>
      match CopyPlanes layout format width height (index + 1) sources targets with
      | none => none
      | some rest => some ({ t with data := data } :: rest)
  | _, _, _ => none

/-- Modelled from the spec: `CopyAvFrameTo`, which per header lines 39-41 "allocates
storage, then copies video frame stored in av_frame_ to cdm_video_frame" and "returns
true when allocation and copy succeed" (the body, in ffmpeg_cdm_video_decoder.cc, is
not among the sources). On failure the frame is left as it was. -/
def FFmpegCdmVideoDecoder.CopyAvFrameTo (allocator : Allocator) (layout : PlaneLayout)
    (av_frame_ : AVFrame) (cdm_video_frame : VideoFrame) : Bool × VideoFrame :=
  match allocator av_frame_.format av_frame_.width av_frame_.height with
  | none => (false, cdm_video_frame)
  | some buffer =>
    match CopyPlanes layout av_frame_.format av_frame_.width av_frame_.height 0
        av_frame_.planes buffer with
    | none => (false, cdm_video_frame)
    | some planes =>
      (true, { cdm_video_frame with
                format := av_frame_.format, width := av_frame_.width,
                height := av_frame_.height, planes := planes })

/-- A sample picture for the copy: one plane of two rows of two bytes, `1 2` and `4 5`,
stored with stride 3. -/
def samplePicture : AVFrame :=
  { format := 1, width := 2, height := 2, planes := [⟨[1, 2, 3, 4, 5, 6], 3⟩], timestamp := 0 }

/-- A sample allocator: one zeroed plane of eight bytes with stride 4. -/
def sampleAllocator : Allocator :=
  fun _ _ _ => some [⟨[0, 0, 0, 0, 0, 0, 0, 0], 4⟩]

/-- A sample layout: one byte per pixel, as many rows as the picture is high. -/
def sampleLayout : PlaneLayout :=
  { row_bytes := fun _ _ width => width, rows := fun _ _ height => height }

/-- An empty frame to decode into. -/
def sampleFrame : VideoFrame :=
  { format := 0, width := 0, height := 0, planes := [], timestamp := 9 }

end webkit_media

namespace extensions
namespace web_navigation_api_helpers

/-! ## Lemmas on dictionaries and keys -/

theorem DictionaryValue.Get_Set (d : DictionaryValue) (key : String) (v : Value)
    (key' : String) :
    DictionaryValue.Get (DictionaryValue.Set d key v) key' =
      if key = key' then some v else DictionaryValue.Get d key' := by
  induction d with
  | nil => simp [DictionaryValue.Set, DictionaryValue.Get]
  | cons p rest ih =>
    obtain ⟨a, x⟩ := p
    by_cases hak : a = key
    · subst hak
      by_cases hk : a = key' <;> simp [DictionaryValue.Set, DictionaryValue.Get, hk]
    · by_cases hk : key = key'
      · subst hk
        simp [DictionaryValue.Set, DictionaryValue.Get, hak, ih]
      · by_cases hak' : a = key'
        · subst hak'
          simp [DictionaryValue.Set, DictionaryValue.Get, hak, hk]
        · simp [DictionaryValue.Set, DictionaryValue.Get, hak, hak', ih, hk]

theorem Keys.WellFormed.distinct {k : Keys} (h : k.WellFormed) :
    k.all.Pairwise (fun a b => a ≠ b ∧ b ≠ a) :=
  List.Pairwise.imp (fun hab => ⟨hab, Ne.symm hab⟩) h.1

theorem static_cast_int_range (x : Int) :
    -2147483648 ≤ static_cast_int x ∧ static_cast_int x ≤ 2147483647 := by
  unfold static_cast_int
  simp only
  split <;> omega

theorem static_cast_int_emod (x : Int) :
    static_cast_int x % 4294967296 = x % 4294967296 := by
  unfold static_cast_int
  simp only
  split <;> omega

theorem static_cast_int_of_range (x : Int) (h1 : -2147483648 ≤ x) (h2 : x ≤ 2147483647) :
    static_cast_int x = x := by
  unfold static_cast_int
  simp only
  split <;> omega

theorem testBit_emod_two_pow (x : Int) (n i : Nat) (hi : i < n) :
    (x % 2 ^ n).toNat.testBit i = x.testBit i := by
  cases x with
  | ofNat m =>
    have h1 : (Int.ofNat m % 2 ^ n : Int) = ((m % 2 ^ n : Nat) : Int) := by
      simp
    rw [h1, Int.toNat_ofNat, Nat.testBit_mod_two_pow]
    simp [Int.testBit, hi]
  | negSucc m =>
    have hpos : (0 : Int) < 2 ^ n := by positivity
    have hlt : m % 2 ^ n < 2 ^ n := Nat.mod_lt _ (by positivity)
    have h1 : (Int.negSucc m % 2 ^ n : Int) = ((2 ^ n - (m % 2 ^ n + 1) : Nat) : Int) := by
      rw [Int.negSucc_emod m hpos]
      push_cast [Nat.cast_sub (show m % 2 ^ n + 1 ≤ 2 ^ n by omega)]
      ring
    rw [h1, Int.toNat_ofNat, Nat.testBit_two_pow_sub_succ hlt, Nat.testBit_mod_two_pow]
    simp [Int.testBit, hi]

theorem static_cast_int_testBit (x : Int) (i : Nat) (hi : i < 32) :
    (static_cast_int x).testBit i = x.testBit i := by
  have h := static_cast_int_emod x
  have h32 : (4294967296 : Int) = 2 ^ 32 := by norm_num
  rw [h32] at h
  rw [← testBit_emod_two_pow (static_cast_int x) 32 i hi, h, testBit_emod_two_pow x 32 i hi]

theorem int_neg_iff_testBit (r : Int) (h1 : -2147483648 ≤ r) (h2 : r ≤ 2147483647) :
    r < 0 ↔ r.testBit 31 = true := by
  cases r with
  | ofNat m =>
    have hm : m < 2 ^ 31 := by
      simp only [Int.ofNat_eq_coe] at h2
      omega
    have hbit := Nat.testBit_lt_two_pow hm
    simp only [Int.testBit, hbit]
    constructor
    · intro h
      simp only [Int.ofNat_eq_coe] at h
      omega
    · intro h
      cases h
  | negSucc m =>
    have hm : m < 2 ^ 31 := by
      rw [Int.negSucc_eq] at h1
      omega
    have hbit := Nat.testBit_lt_two_pow hm
    simp only [Int.testBit, hbit]
    constructor
    · intro _
      rfl
    · intro _
      exact Int.negSucc_lt_zero m

theorem static_cast_int_neg_iff (x : Int) :
    static_cast_int x < 0 ↔ x.testBit 31 = true := by
  rw [← static_cast_int_testBit x 31 (by decide)]
  exact int_neg_iff_testBit _ (static_cast_int_range x).1 (static_cast_int_range x).2

theorem and_two_pow_ne_zero (n i : Nat) : n &&& 2 ^ i ≠ 0 ↔ n.testBit i = true := by
  rw [Nat.and_two_pow]
  cases n.testBit i <;> simp

theorem sampleCoreTransitionString_ne_start_page (t : Nat) :
    sampleCoreTransitionString t ≠ "start_page" := by
  unfold sampleCoreTransitionString
  split <;> decide

theorem GetFrameId_range (is_main_frame : Bool) (frame_id : Int) :
    -2147483648 ≤ GetFrameId is_main_frame frame_id ∧
      GetFrameId is_main_frame frame_id ≤ 2147483647 := by
  cases is_main_frame
  · simpa [GetFrameId] using static_cast_int_range frame_id
  · simp [GetFrameId]

/-! ## GetFrameId -/

/-- C1: for every frame_id (negative, 0, INT64_MAX, outside the 32-bit range alike),
`GetFrameId(true, frame_id)` returns 0. -/
theorem GetFrameId_main_frame (frame_id : Int) : GetFrameId true frame_id = 0 := by
  simp [GetFrameId]

/-- C2: `GetFrameId(false, frame_id)` is frame_id truncated to the 32-bit int: it lies
in the int range, its bits 0 to 31 are those of frame_id (it is congruent to frame_id
modulo 2^32) with bit 31 read as the sign, and it is the only such integer; so it is
frame_id itself for every frame_id in [-2^31, 2^31-1], 0 for 0, 2147483647 for
2147483647, and 5 for 2^32 + 5. -/
theorem GetFrameId_subframe_truncates (frame_id : Int) :
    (-2147483648 ≤ GetFrameId false frame_id ∧ GetFrameId false frame_id ≤ 2147483647) ∧
    GetFrameId false frame_id % 4294967296 = frame_id % 4294967296 ∧
    (∀ i, i < 32 → (GetFrameId false frame_id).testBit i = frame_id.testBit i) ∧
    (GetFrameId false frame_id < 0 ↔ frame_id.testBit 31 = true) ∧
    (∀ r : Int, -2147483648 ≤ r → r ≤ 2147483647 →
      r % 4294967296 = frame_id % 4294967296 → r = GetFrameId false frame_id) ∧
    (-2147483648 ≤ frame_id → frame_id ≤ 2147483647 → GetFrameId false frame_id = frame_id) ∧
    GetFrameId false 0 = 0 ∧
    GetFrameId false 2147483647 = 2147483647 ∧
    GetFrameId false (4294967296 + 5) = 5 := by
  have hr := static_cast_int_range frame_id
  have hm := static_cast_int_emod frame_id
  have h0 : GetFrameId false frame_id = static_cast_int frame_id := by simp [GetFrameId]
  refine ⟨by omega, by omega, ?_, ?_, ?_, ?_, ?_, ?_, ?_⟩
  · intro i hi
    rw [h0]
    exact static_cast_int_testBit frame_id i hi
  · rw [h0]
    exact static_cast_int_neg_iff frame_id
  · intro r h1 h2 h3
    omega
  · intro h1 h2
    rw [h0]
    exact static_cast_int_of_range frame_id h1 h2
  · decide
  · decide
  · decide

/-- The truncation of C2 at concrete identifiers: one inside the int range, and
-1 for 2^32 - 1, whose low 32 bits are all set. -/
theorem GetFrameId_subframe_truncates_witness :
    GetFrameId false (-7) = -7 ∧ (-1 : Int) = GetFrameId false 4294967295 :=
  ⟨(GetFrameId_subframe_truncates (-7)).2.2.2.2.2.1 (by decide) (by decide),
   (GetFrameId_subframe_truncates 4294967295).2.2.2.2.1 (-1) (by decide) (by decide)
     (by decide)⟩

/-! ## The frame identifiers of the event records -/

/-- C3: in the records of DispatchOnBeforeNavigate, DispatchOnCommitted,
DispatchOnDOMContentLoaded, DispatchOnCompleted and DispatchOnErrorOccurred the field
under kFrameIdKey is GetFrameId(is_main_frame, frame_id), hence 0 for a main frame
whatever frame_id is; parentFrameId of DispatchOnBeforeNavigate is
GetFrameId(parent_is_main_frame, parent_frame_id) and sourceFrameId of
DispatchOnCreatedNavigationTarget is GetFrameId(source_frame_is_main_frame,
source_frame_id). No raw 64-bit identifier gets into a record: each record is the same
for two identifiers that GetFrameId maps to the same value, and the identifier fields
lie in the 32-bit int range. The keys are any thirteen distinct names. -/
theorem dispatch_frame_ids (k : Keys) (hk : k.WellFormed) (pt : PageTransitionTypes)
    (ErrorToString : Int → String) (now : Time) (web_contents target_web_contents : WebContents)
    (render_process_id error_code : Int) (url : GURL) (transition_type : Nat)
    (target_url : GURL) (frame_id parent_frame_id source_frame_id : Int)
    (is_main_frame parent_is_main_frame source_frame_is_main_frame : Bool) :
    (DictionaryValue.Get (DispatchOnBeforeNavigate_dict k now web_contents render_process_id
        frame_id is_main_frame parent_frame_id parent_is_main_frame url) k.kFrameIdKey
      = some (Value.integer (GetFrameId is_main_frame frame_id)) ∧
     DictionaryValue.Get (DispatchOnBeforeNavigate_dict k now web_contents render_process_id
        frame_id is_main_frame parent_frame_id parent_is_main_frame url) k.kParentFrameIdKey
      = some (Value.integer (GetFrameId parent_is_main_frame parent_frame_id)) ∧
     DictionaryValue.Get (DispatchOnCommitted_dict k pt now web_contents frame_id is_main_frame
        url transition_type) k.kFrameIdKey
      = some (Value.integer (GetFrameId is_main_frame frame_id)) ∧
     DictionaryValue.Get (DispatchOnDOMContentLoaded_dict k now web_contents url is_main_frame
        frame_id) k.kFrameIdKey
      = some (Value.integer (GetFrameId is_main_frame frame_id)) ∧
     DictionaryValue.Get (DispatchOnCompleted_dict k now web_contents url is_main_frame
        frame_id) k.kFrameIdKey
      = some (Value.integer (GetFrameId is_main_frame frame_id)) ∧
     DictionaryValue.Get (DispatchOnErrorOccurred_dict k ErrorToString now web_contents
        render_process_id url frame_id is_main_frame error_code) k.kFrameIdKey
      = some (Value.integer (GetFrameId is_main_frame frame_id)) ∧
     DictionaryValue.Get (DispatchOnCreatedNavigationTarget_dict k now web_contents
        source_frame_id source_frame_is_main_frame target_web_contents target_url)
        k.kSourceFrameIdKey
      = some (Value.integer (GetFrameId source_frame_is_main_frame source_frame_id))) ∧
    ((is_main_frame = true → GetFrameId is_main_frame frame_id = 0) ∧
     (parent_is_main_frame = true → GetFrameId parent_is_main_frame parent_frame_id = 0) ∧
     (source_frame_is_main_frame = true →
        GetFrameId source_frame_is_main_frame source_frame_id = 0)) ∧
    ((-2147483648 ≤ GetFrameId is_main_frame frame_id ∧
        GetFrameId is_main_frame frame_id ≤ 2147483647) ∧
     (-2147483648 ≤ GetFrameId parent_is_main_frame parent_frame_id ∧
        GetFrameId parent_is_main_frame parent_frame_id ≤ 2147483647) ∧
     (-2147483648 ≤ GetFrameId source_frame_is_main_frame source_frame_id ∧
        GetFrameId source_frame_is_main_frame source_frame_id ≤ 2147483647)) ∧
    (∀ frame_id' parent_frame_id' source_frame_id' : Int,
      GetFrameId is_main_frame frame_id' = GetFrameId is_main_frame frame_id →
      GetFrameId parent_is_main_frame parent_frame_id' =
        GetFrameId parent_is_main_frame parent_frame_id →
      GetFrameId source_frame_is_main_frame source_frame_id' =
        GetFrameId source_frame_is_main_frame source_frame_id →
      DispatchOnBeforeNavigate_dict k now web_contents render_process_id frame_id'
          is_main_frame parent_frame_id' parent_is_main_frame url
        = DispatchOnBeforeNavigate_dict k now web_contents render_process_id frame_id
          is_main_frame parent_frame_id parent_is_main_frame url ∧
      DispatchOnCommitted_dict k pt now web_contents frame_id' is_main_frame url transition_type
        = DispatchOnCommitted_dict k pt now web_contents frame_id is_main_frame url
          transition_type ∧
      DispatchOnDOMContentLoaded_dict k now web_contents url is_main_frame frame_id'
        = DispatchOnDOMContentLoaded_dict k now web_contents url is_main_frame frame_id ∧
      DispatchOnCompleted_dict k now web_contents url is_main_frame frame_id'
        = DispatchOnCompleted_dict k now web_contents url is_main_frame frame_id ∧
      DispatchOnErrorOccurred_dict k ErrorToString now web_contents render_process_id url
          frame_id' is_main_frame error_code
        = DispatchOnErrorOccurred_dict k ErrorToString now web_contents render_process_id url
          frame_id is_main_frame error_code ∧
      DispatchOnCreatedNavigationTarget_dict k now web_contents source_frame_id'
          source_frame_is_main_frame target_web_contents target_url
        = DispatchOnCreatedNavigationTarget_dict k now web_contents source_frame_id
          source_frame_is_main_frame target_web_contents target_url) := by
  have hd := hk.distinct
  simp only [Keys.all, List.pairwise_cons, List.mem_cons, List.mem_singleton, forall_eq_or_imp,
    forall_eq, List.not_mem_nil, List.Pairwise.nil] at hd
  refine ⟨⟨?_, ?_, ?_, ?_, ?_, ?_, ?_⟩, ⟨?_, ?_, ?_⟩, ⟨GetFrameId_range _ _, GetFrameId_range _ _,
    GetFrameId_range _ _⟩, ?_⟩
  · simp [DispatchOnBeforeNavigate_dict, DictionaryValue.SetInteger, DictionaryValue.SetDouble,
      DictionaryValue.SetString, DictionaryValue.Get_Set, hd, DictionaryValue.Get]
  · simp [DispatchOnBeforeNavigate_dict, DictionaryValue.SetInteger, DictionaryValue.SetDouble,
      DictionaryValue.SetString, DictionaryValue.Get_Set, hd, DictionaryValue.Get]
  · simp [DispatchOnCommitted_dict, DictionaryValue.SetInteger, DictionaryValue.SetDouble,
      DictionaryValue.SetString, DictionaryValue.Get_Set, hd, DictionaryValue.Get]
  · simp [DispatchOnDOMContentLoaded_dict, DictionaryValue.SetInteger,
      DictionaryValue.SetDouble, DictionaryValue.SetString, DictionaryValue.Get_Set, hd,
      DictionaryValue.Get]
  · simp [DispatchOnCompleted_dict, DictionaryValue.SetInteger, DictionaryValue.SetDouble,
      DictionaryValue.SetString, DictionaryValue.Get_Set, hd, DictionaryValue.Get]
  · simp [DispatchOnErrorOccurred_dict, DictionaryValue.SetInteger, DictionaryValue.SetDouble,
      DictionaryValue.SetString, DictionaryValue.Get_Set, hd, DictionaryValue.Get]
  · simp [DispatchOnCreatedNavigationTarget_dict, DictionaryValue.SetInteger,
      DictionaryValue.SetDouble, DictionaryValue.SetString, DictionaryValue.Get_Set, hd,
      DictionaryValue.Get]
  · intro h
    simp [GetFrameId, h]
  · intro h
    simp [GetFrameId, h]
  · intro h
    simp [GetFrameId, h]
  · intro frame_id' parent_frame_id' source_frame_id' h1 h2 h3
    simp only [DispatchOnBeforeNavigate_dict, DispatchOnCommitted_dict,
      DispatchOnDOMContentLoaded_dict, DispatchOnCompleted_dict, DispatchOnErrorOccurred_dict,
      DispatchOnCreatedNavigationTarget_dict, h1, h2, h3, and_self]

/-- The frame identifiers of C3 with the documented keys: a main frame whose internal
identifier is 2^40 + 9 is dispatched as frame 0, below a frame 2^32 + 5 seen as 5. -/
theorem dispatch_frame_ids_witness :
    webNavigationKeys.WellFormed ∧
    DictionaryValue.Get (DispatchOnBeforeNavigate_dict webNavigationKeys sampleTime ⟨3, 7, ⟨0⟩⟩ 7
        1099511627785 true 4294967301 false ⟨"http://a/", "http://a/"⟩) "frameId"
      = some (Value.integer 0) ∧
    DictionaryValue.Get (DispatchOnBeforeNavigate_dict webNavigationKeys sampleTime ⟨3, 7, ⟨0⟩⟩ 7
        1099511627785 true 4294967301 false ⟨"http://a/", "http://a/"⟩) "parentFrameId"
      = some (Value.integer 5) :=
  ⟨by decide,
   (dispatch_frame_ids webNavigationKeys (by decide) samplePageTransitionTypes
      (fun _ => "net::ERR_FAILED") sampleTime ⟨3, 7, ⟨0⟩⟩ ⟨4, 8, ⟨0⟩⟩ 7 (-2)
      ⟨"http://a/", "http://a/"⟩ 6 ⟨"http://b/", "http://b/"⟩ 1099511627785 4294967301 11
      true false false).1.1,
   (dispatch_frame_ids webNavigationKeys (by decide) samplePageTransitionTypes
      (fun _ => "net::ERR_FAILED") sampleTime ⟨3, 7, ⟨0⟩⟩ ⟨4, 8, ⟨0⟩⟩ 7 (-2)
      ⟨"http://a/", "http://a/"⟩ 6 ⟨"http://b/", "http://b/"⟩ 1099511627785 4294967301 11
      true false false).1.2.1⟩

/-! ## Lemmas on DispatchEvent -/

theorem DispatchEvent_of_router (env : Browser) (browser_context : BrowserContext)
    (event_name : String) (args : ListValue) (url : GURL) (log : Broadcasts)
    (profile : Profile) (router : EventRouter)
    (hp : env.FromBrowserContext browser_context = some profile)
    (hr : env.event_router profile = some router) :
    DispatchEvent env browser_context event_name args url log
      = log ++ [(router, { event_name := event_name, event_args := args,
                           restrict_to_browser_context := some profile,
                           filter_info := { url := some url } })] := by
  simp [DispatchEvent, hp, hr, BroadcastEvent, EventFilteringInfo.SetURL]

theorem DispatchEvent_of_no_router (env : Browser) (browser_context : BrowserContext)
    (event_name : String) (args : ListValue) (url : GURL) (log : Broadcasts)
    (h : ∀ profile, env.FromBrowserContext browser_context = some profile →
      env.event_router profile = none) :
    DispatchEvent env browser_context event_name args url log = log := by
  unfold DispatchEvent
  cases hp : env.FromBrowserContext browser_context with
  | none => rfl
  | some profile => simp [h profile hp]

/-! ## Lemmas on the rounding of doubles -/

theorem roundHalfEven_nearest (x : ℚ) (z : ℤ) :
    |x - roundHalfEven x| ≤ |x - z| := by
  have h1 : (⌊x⌋ : ℚ) ≤ x := Int.floor_le x
  have h2 : x < ⌊x⌋ + 1 := Int.lt_floor_add_one x
  have hz : z ≤ ⌊x⌋ ∨ ⌊x⌋ + 1 ≤ z := by omega
  have hzq : (z : ℚ) ≤ ⌊x⌋ ∨ ((⌊x⌋ : ℚ) + 1 ≤ z) := by
    rcases hz with h | h
    · left; exact_mod_cast h
    · right; exact_mod_cast h
  unfold roundHalfEven
  simp only
  split_ifs with c1 c2 c3
  · rcases hzq with h | h
    · rw [abs_of_nonneg (by linarith), abs_of_nonneg (by linarith)]; linarith
    · rw [abs_of_nonneg (by linarith), abs_of_nonpos (by linarith)]; linarith
  · push_cast
    rcases hzq with h | h
    · rw [abs_of_nonpos (by linarith), abs_of_nonneg (by linarith)]; linarith
    · rw [abs_of_nonpos (by linarith), abs_of_nonpos (by linarith)]; linarith
  · have : x - ⌊x⌋ = 1 / 2 := le_antisymm (not_lt.mp c2) (not_lt.mp c1)
    rcases hzq with h | h
    · rw [abs_of_nonneg (by linarith), abs_of_nonneg (by linarith)]; linarith
    · rw [abs_of_nonneg (by linarith), abs_of_nonpos (by linarith)]; linarith
  · have : x - ⌊x⌋ = 1 / 2 := le_antisymm (not_lt.mp c2) (not_lt.mp c1)
    push_cast
    rcases hzq with h | h
    · rw [abs_of_nonpos (by linarith), abs_of_nonneg (by linarith)]; linarith
    · rw [abs_of_nonpos (by linarith), abs_of_nonpos (by linarith)]; linarith

theorem roundHalfEven_intCast (z : ℤ) : roundHalfEven (z : ℚ) = z := by
  have h := roundHalfEven_nearest (z : ℚ) z
  simp only [sub_self, abs_zero, abs_nonpos_iff] at h
  have h' : ((roundHalfEven (z : ℚ) : ℤ) : ℚ) = (z : ℚ) := by linarith
  exact_mod_cast h'

theorem roundHalfEven_ge (x : ℚ) (n : ℤ) (h : (n : ℚ) ≤ x) : n ≤ roundHalfEven x := by
  have hf : n ≤ ⌊x⌋ := Int.le_floor.mpr h
  unfold roundHalfEven
  simp only
  split_ifs <;> omega

theorem roundHalfEven_le (x : ℚ) (n : ℤ) (h : x ≤ (n : ℚ)) : roundHalfEven x ≤ n := by
  rcases eq_or_lt_of_le h with h | h
  · rw [h, roundHalfEven_intCast]
  · have hf : ⌊x⌋ < n := Int.floor_lt.mpr h
    unfold roundHalfEven
    simp only
    split_ifs <;> omega

theorem roundHalfEven_eq_of_close (x : ℚ) (z : ℤ) (h : |x - z| < 1 / 2) :
    roundHalfEven x = z := by
  have hn := roundHalfEven_nearest x z
  have hlt : |x - roundHalfEven x| < 1 / 2 := lt_of_le_of_lt hn h
  rw [abs_lt] at h hlt
  have h1 : ((roundHalfEven x : ℤ) : ℚ) - z < 1 := by linarith
  have h2 : (z : ℚ) - (roundHalfEven x : ℤ) < 1 := by linarith
  have h1' : roundHalfEven x - z < 1 := by exact_mod_cast h1
  have h2' : z - roundHalfEven x < 1 := by exact_mod_cast h2
  omega

theorem two_zpow_log_le (q : ℚ) (hq : 0 < q) : (2 : ℚ) ^ Int.log 2 q ≤ q := by
  have h := Int.zpow_log_le_self (b := 2) (r := q) (by norm_num) hq
  simpa using h

theorem lt_two_zpow_log_succ (q : ℚ) : q < (2 : ℚ) ^ (Int.log 2 q + 1) := by
  have h := Int.lt_zpow_succ_log_self (b := 2) (by norm_num) q
  simpa using h

theorem Double.roundMagnitude_zero : Double.roundMagnitude 0 = 0 := by
  unfold Double.roundMagnitude
  simp only [zero_div]
  have h : roundHalfEven 0 = 0 := by
    have := roundHalfEven_intCast 0
    simpa using this
  rw [h]
  simp

theorem Double.roundMagnitude_nearest (q : ℚ) (hq : 0 ≤ q) (d : ℚ)
    (hd : Double.IsMagnitude d) :
    |Double.roundMagnitude q - q| ≤ |d - q| := by
  rcases eq_or_lt_of_le hq with h0 | hpos
  · subst h0
    rw [Double.roundMagnitude_zero]
    simp
  · obtain ⟨m, j, hm, hj1, hj2, rfl⟩ := hd
    unfold Double.roundMagnitude
    simp only
    set e := Double.ulpExponent q with he
    have hp : (0 : ℚ) < 2 ^ e := by positivity
    have hscale : ∀ z : ℤ,
        |(roundHalfEven (q / 2 ^ e) : ℚ) * 2 ^ e - q| ≤ |(z : ℚ) * 2 ^ e - q| := by
      intro z
      have h := roundHalfEven_nearest (q / 2 ^ e) z
      have e1 : (roundHalfEven (q / 2 ^ e) : ℚ) * 2 ^ e - q
          = -((q / 2 ^ e - roundHalfEven (q / 2 ^ e)) * 2 ^ e) := by
        field_simp
        ring
      have e2 : (z : ℚ) * 2 ^ e - q = -((q / 2 ^ e - z) * 2 ^ e) := by
        field_simp
        ring
      rw [e1, e2, abs_neg, abs_neg, abs_mul, abs_mul, abs_of_pos hp]
      exact mul_le_mul_of_nonneg_right h hp.le
    by_cases hje : e ≤ j
    · have hz : ((m : ℚ) * 2 ^ j) = ((m * 2 ^ (j - e).toNat : ℤ) : ℚ) * 2 ^ e := by
        have hjn : ((j - e).toNat : ℤ) = j - e := Int.toNat_of_nonneg (by omega)
        push_cast
        rw [mul_assoc, ← zpow_natCast, hjn, ← zpow_add₀ (by norm_num : (2 : ℚ) ≠ 0)]
        congr 2
        omega
      rw [hz]
      exact hscale _
    · have hje' : j < e := by omega
      have hE : e = Int.log 2 q - 52 := by
        rw [he]
        unfold Double.ulpExponent
        rw [he] at hje'
        unfold Double.ulpExponent at hje'
        omega
      have hlow := two_zpow_log_le q hpos
      have h2E : ((2 ^ 52 : ℤ) : ℚ) * 2 ^ e = 2 ^ Int.log 2 q := by
        have c52 : ((2 ^ 52 : ℤ) : ℚ) = (2 : ℚ) ^ (52 : ℤ) := by norm_num
        rw [c52, ← zpow_add₀ (by norm_num : (2 : ℚ) ≠ 0), hE]
        congr 1
        omega
      have hd_lt : (m : ℚ) * 2 ^ j < 2 ^ Int.log 2 q := by
        have hm' : (m : ℚ) < 2 ^ (53 : ℕ) := by exact_mod_cast hm
        have hpj : (0 : ℚ) < 2 ^ j := by positivity
        calc (m : ℚ) * 2 ^ j < 2 ^ (53 : ℕ) * 2 ^ j := mul_lt_mul_of_pos_right hm' hpj
          _ = 2 ^ ((53 : ℤ) + j) := by
            rw [zpow_add₀ (by norm_num : (2 : ℚ) ≠ 0)]
            norm_num
          _ ≤ 2 ^ Int.log 2 q := zpow_le_zpow_right₀ (by norm_num) (by omega)
      have h := hscale (2 ^ 52)
      rw [h2E] at h
      rw [abs_of_nonpos (by linarith : (2 : ℚ) ^ Int.log 2 q - q ≤ 0)] at h
      rw [abs_of_neg (by linarith : (m : ℚ) * 2 ^ j - q < 0)]
      linarith

theorem Double.IsMagnitude.nonneg {x : ℚ} (h : Double.IsMagnitude x) : 0 ≤ x := by
  obtain ⟨m, e, _, _, _, rfl⟩ := h
  positivity

theorem Double.roundMagnitude_of_isMagnitude (q : ℚ) (h : Double.IsMagnitude q) :
    Double.roundMagnitude q = q := by
  have hn := Double.roundMagnitude_nearest q h.nonneg q h
  simp only [sub_self, abs_zero, abs_nonpos_iff] at hn
  linarith

theorem Double.roundMagnitude_isMagnitude (q : ℚ) (hq : 0 ≤ q)
    (h : Double.roundMagnitude q < 2 ^ 1024) :
    Double.IsMagnitude (Double.roundMagnitude q) := by
  rcases eq_or_lt_of_le hq with h0 | hpos
  · subst h0
    rw [Double.roundMagnitude_zero]
    exact ⟨0, 0, by norm_num, by norm_num, by norm_num, by simp⟩
  · unfold Double.roundMagnitude at h ⊢
    simp only at h ⊢
    set e := Double.ulpExponent q with he
    have he1 : Int.log 2 q - 52 ≤ e := by rw [he]; unfold Double.ulpExponent; omega
    have he2 : -1074 ≤ e := by rw [he]; unfold Double.ulpExponent; omega
    have he3 : e = Int.log 2 q - 52 ∨ e = -1074 := by
      rw [he]; unfold Double.ulpExponent; omega
    have hp : (0 : ℚ) < 2 ^ e := by positivity
    have h2 : (2 : ℚ) ≠ 0 := by norm_num
    set R := roundHalfEven (q / 2 ^ e) with hR
    have hR0 : 0 ≤ R := by
      apply roundHalfEven_ge
      simp only [Int.cast_zero]
      positivity
    have hRle : R ≤ 2 ^ 53 := by
      apply roundHalfEven_le
      have hlt := lt_two_zpow_log_succ q
      have : q / 2 ^ e < 2 ^ (Int.log 2 q + 1 - e) := by
        rw [zpow_sub₀ h2]
        exact div_lt_div_of_pos_right hlt hp
      have h53 : (2 : ℚ) ^ (Int.log 2 q + 1 - e) ≤ 2 ^ (53 : ℤ) :=
        zpow_le_zpow_right₀ (by norm_num) (by omega)
      have c53 : (((2 : ℤ) ^ 53 : ℤ) : ℚ) = (2 : ℚ) ^ (53 : ℤ) := by norm_num
      rw [c53]
      linarith
    have c1024 : (2 : ℚ) ^ 1024 = (2 : ℚ) ^ (1024 : ℤ) := by norm_num
    rcases eq_or_lt_of_le hRle with hR53 | hRlt
    · -- the significand carried into the next binade
      have hval : (R : ℚ) * 2 ^ e = ((2 ^ 52 : ℕ) : ℚ) * 2 ^ (e + 1) := by
        rw [hR53, zpow_add₀ h2]
        norm_num
        ring
      have hlt : (2 : ℚ) ^ (53 + e) < 2 ^ (1024 : ℤ) := by
        rw [← c1024]
        have : (R : ℚ) * 2 ^ e = 2 ^ (53 + e) := by
          rw [hR53, zpow_add₀ h2]
          norm_num
        rw [← this]
        exact h
      have hlt' : 53 + e < 1024 :=
        (zpow_lt_zpow_iff_right₀ (by norm_num : (1 : ℚ) < 2)).mp hlt
      exact ⟨2 ^ 52, e + 1, by norm_num, by omega, by omega, hval⟩
    · have hcast : (R : ℚ) = ((R.toNat : ℕ) : ℚ) := by
        have : ((R.toNat : ℕ) : ℤ) = R := Int.toNat_of_nonneg hR0
        exact_mod_cast this.symm
      refine ⟨R.toNat, e, by omega, he2, ?_, by rw [hcast]⟩
      by_contra hbig
      have hbig' : 972 ≤ e := by omega
      have hE : e = Int.log 2 q - 52 := by omega
      have hlow := two_zpow_log_le q hpos
      have hR52 : (2 : ℤ) ^ 52 ≤ R := by
        apply roundHalfEven_ge
        have c52 : (((2 : ℤ) ^ 52 : ℤ) : ℚ) = (2 : ℚ) ^ (52 : ℤ) := by norm_num
        rw [c52, le_div_iff₀ hp, ← zpow_add₀ h2]
        have : (52 : ℤ) + e = Int.log 2 q := by omega
        rw [this]
        exact hlow
      have hR52' : (2 : ℚ) ^ (52 : ℤ) ≤ (R : ℚ) := by
        have : (((2 : ℤ) ^ 52 : ℤ) : ℚ) ≤ (R : ℚ) := by exact_mod_cast hR52
        have c52 : (((2 : ℤ) ^ 52 : ℤ) : ℚ) = (2 : ℚ) ^ (52 : ℤ) := by norm_num
        rw [c52] at this
        exact this
      have hge : (2 : ℚ) ^ (1024 : ℤ) ≤ (R : ℚ) * 2 ^ e := by
        calc (2 : ℚ) ^ (1024 : ℤ) ≤ 2 ^ ((52 : ℤ) + e) :=
              zpow_le_zpow_right₀ (by norm_num) (by omega)
          _ = 2 ^ (52 : ℤ) * 2 ^ e := zpow_add₀ h2 _ _
          _ ≤ (R : ℚ) * 2 ^ e := mul_le_mul_of_nonneg_right hR52' hp.le
      rw [c1024] at h
      linarith

theorem Double.ulpExponent_of_binade (q : ℚ) (e : ℤ) (he : -1074 ≤ e)
    (hlo : (2 : ℚ) ^ (e + 52) ≤ q) (hhi : q < 2 ^ (e + 53)) :
    Double.ulpExponent q = e := by
  have hpos : 0 < q := lt_of_lt_of_le (by positivity) hlo
  have h1 : e + 52 ≤ Int.log 2 q := by
    apply (Int.zpow_le_iff_le_log (b := 2) (by norm_num) hpos).mp
    simpa using hlo
  have h2 : Int.log 2 q < e + 53 := by
    apply (Int.lt_zpow_iff_log_lt (b := 2) (by norm_num) hpos).mp
    simpa using hhi
  unfold Double.ulpExponent
  omega

theorem Double.roundMagnitude_eq_of_close (q : ℚ) (R e : ℤ) (he : -1074 ≤ e)
    (hlo : (2 : ℚ) ^ (e + 52) ≤ q) (hhi : q < 2 ^ (e + 53))
    (hclose : |q / 2 ^ e - R| < 1 / 2) : Double.roundMagnitude q = R * 2 ^ e := by
  unfold Double.roundMagnitude
  simp only
  rw [Double.ulpExponent_of_binade q e he hlo hhi, roundHalfEven_eq_of_close _ R hclose]

theorem Double.IsMagnitude.lt_overflow {x : ℚ} (h : Double.IsMagnitude x) : x < 2 ^ 1024 := by
  obtain ⟨m, e, hm, _, he, rfl⟩ := h
  have hm' : (m : ℚ) < 2 ^ (53 : ℤ) := by
    have h1 : (m : ℚ) < 2 ^ (53 : ℕ) := by exact_mod_cast hm
    have h2 : (2 : ℚ) ^ (53 : ℤ) = 2 ^ (53 : ℕ) := by norm_num
    rw [h2]
    exact h1
  have hp : (0 : ℚ) < 2 ^ e := by positivity
  have c1024 : (2 : ℚ) ^ 1024 = (2 : ℚ) ^ (1024 : ℤ) := by norm_num
  rw [c1024]
  calc (m : ℚ) * 2 ^ e < 2 ^ (53 : ℤ) * 2 ^ e := mul_lt_mul_of_pos_right hm' hp
    _ = 2 ^ ((53 : ℤ) + e) := (zpow_add₀ (by norm_num : (2 : ℚ) ≠ 0) _ _).symm
    _ ≤ 2 ^ (1024 : ℤ) := zpow_le_zpow_right₀ (by norm_num) (by omega)

theorem Double.isMagnitude_max : Double.IsMagnitude (2 ^ 1024 - 2 ^ 971) :=
  ⟨2 ^ 53 - 1, 971, by norm_num, by norm_num, by norm_num, by norm_num⟩

theorem Double.roundMagnitude_lt_overflow (q : ℚ) (hq : 0 ≤ q) (h : q ≤ 2 ^ 1024 - 2 ^ 971) :
    Double.roundMagnitude q < 2 ^ 1024 := by
  have hn := Double.roundMagnitude_nearest q hq _ Double.isMagnitude_max
  rw [abs_of_nonneg (by linarith : (0 : ℚ) ≤ 2 ^ 1024 - 2 ^ 971 - q)] at hn
  have := le_abs_self (Double.roundMagnitude q - q)
  have hpos : (0 : ℚ) < 2 ^ 971 := by positivity
  linarith

theorem Double.round_of_isMagnitude (negative : Bool) (q : ℚ) (h : Double.IsMagnitude q) :
    Double.round negative q = Double.finite negative q := by
  unfold Double.round
  rw [Double.roundMagnitude_of_isMagnitude q h, if_neg (not_le.mpr h.lt_overflow)]

theorem Double.round_finite_or_infinity (negative : Bool) (q : ℚ) (hq : 0 ≤ q) :
    Double.round negative q = Double.infinity negative ∨
    ∃ m, Double.round negative q = Double.finite negative m ∧ Double.IsMagnitude m ∧
      ∀ d, Double.IsMagnitude d → |m - q| ≤ |d - q| := by
  unfold Double.round
  by_cases h : (2 : ℚ) ^ 1024 ≤ Double.roundMagnitude q
  · left
    rw [if_pos h]
  · right
    rw [if_neg h]
    exact ⟨_, rfl, Double.roundMagnitude_isMagnitude q hq (not_le.mp h),
      fun d hd => Double.roundMagnitude_nearest q hq d hd⟩

theorem Double.round_finite_of_le_max (negative : Bool) (q : ℚ) (hq : 0 ≤ q)
    (h : q ≤ 2 ^ 1024 - 2 ^ 971) :
    ∃ m, Double.round negative q = Double.finite negative m ∧ Double.IsMagnitude m ∧
      ∀ d, Double.IsMagnitude d → |m - q| ≤ |d - q| := by
  have hlt := Double.roundMagnitude_lt_overflow q hq h
  unfold Double.round
  rw [if_neg (not_le.mpr hlt)]
  exact ⟨_, rfl, Double.roundMagnitude_isMagnitude q hq hlt,
    fun d hd => Double.roundMagnitude_nearest q hq d hd⟩

theorem Double.round_eq_of_close (negative : Bool) (q : ℚ) (R e : ℤ) (he : -1074 ≤ e)
    (hlo : (2 : ℚ) ^ (e + 52) ≤ q) (hhi : q < 2 ^ (e + 53))
    (hclose : |q / 2 ^ e - R| < 1 / 2) (hfin : (R : ℚ) * 2 ^ e < 2 ^ 1024) :
    Double.round negative q = Double.finite negative (R * 2 ^ e) := by
  unfold Double.round
  rw [Double.roundMagnitude_eq_of_close q R e he hlo hhi hclose, if_neg (not_le.mpr hfin)]

theorem Double.ofInt_thousand : Double.ofInt 1000 = Double.finite false 1000 := by
  unfold Double.ofInt
  have h : Double.IsMagnitude |((1000 : ℤ) : ℚ)| :=
    ⟨1000, 0, by norm_num, by norm_num, by norm_num, by norm_num⟩
  rw [Double.round_of_isMagnitude _ _ h]
  norm_num

theorem MilliSecondsFromTime_finite (now : Time) (s : Bool) (m : ℚ)
    (h : now.ToDoubleT = Double.finite s m) :
    MilliSecondsFromTime now = Double.round s (1000 * m) := by
  unfold MilliSecondsFromTime
  rw [Double.ofInt_thousand, h]
  simp [Double.mul]

theorem MilliSecondsFromTime_tenth :
    MilliSecondsFromTime ⟨sampleTenth⟩ = Double.finite false 100 := by
  rw [MilliSecondsFromTime_finite ⟨sampleTenth⟩ false _ rfl]
  have h := Double.round_eq_of_close false (1000 * (3602879701896397 / 36028797018963968))
    7036874417766400 (-46) (by norm_num) (by norm_num) (by norm_num)
    (by rw [abs_lt]; constructor <;> norm_num) (by norm_num)
  rw [h]
  norm_num

/-! ## The time stamp and the hand-over to DispatchEvent -/

theorem MilliSecondsFromTime_clock :
    MilliSecondsFromTime ⟨sampleClock⟩ = Double.finite false (1740800000126419 / 1024) := by
  rw [MilliSecondsFromTime_finite ⟨sampleClock⟩ false _ rfl]
  have h := Double.round_eq_of_close false (1000 * (1782579200129453 / 1048576))
    6963200000505676 (-12) (by norm_num) (by norm_num) (by norm_num)
    (by rw [abs_lt]; constructor <;> norm_num) (by norm_num)
  rw [h]
  norm_num

/-- C6: each of the seven dispatch functions calls DispatchEvent with a list of exactly
one element, the dictionary it built, and nothing is changed in between: where the
browser context has a profile with an event router, the event that reaches the router
carries that one-element list. The dictionary has under kTimeStampKey the double
MilliSecondsFromTime(now), the product 1000 * ToDoubleT() in double arithmetic: for
a finite time of t seconds it is 1000 t itself when that is a double, and otherwise
the double nearest to 1000 t (the infinity on overflow, which needs 1000 t above the
largest double); an infinite time gives the same infinity and a NaN time a NaN. -/
theorem dispatch_args_and_time_stamp (k : Keys) (names : EventNames) (pt : PageTransitionTypes)
    (ErrorToString : Int → String) (env : Browser) (now : Time) (event_name : String)
    (web_contents target_web_contents old_web_contents new_web_contents : WebContents)
    (browser_context : BrowserContext) (render_process_id error_code : Int)
    (url target_url : GURL) (transition_type : Nat)
    (frame_id parent_frame_id source_frame_id : Int)
    (is_main_frame parent_is_main_frame source_frame_is_main_frame : Bool)
    (log : Broadcasts) :
    (MilliSecondsFromTime now = Double.mul (Double.finite false 1000) now.ToDoubleT ∧
     (∀ s m, now.ToDoubleT = Double.finite s m → 0 ≤ m →
        (Double.IsMagnitude (1000 * m) →
          MilliSecondsFromTime now = Double.finite s (1000 * m)) ∧
        (1000 * m ≤ 2 ^ 1024 - 2 ^ 971 →
          ∃ m', MilliSecondsFromTime now = Double.finite s m' ∧ Double.IsMagnitude m' ∧
            ∀ d, Double.IsMagnitude d → |m' - 1000 * m| ≤ |d - 1000 * m|) ∧
        (MilliSecondsFromTime now = Double.infinity s ∨
          ∃ m', MilliSecondsFromTime now = Double.finite s m' ∧ Double.IsMagnitude m' ∧
            ∀ d, Double.IsMagnitude d → |m' - 1000 * m| ≤ |d - 1000 * m|)) ∧
     (∀ s, now.ToDoubleT = Double.infinity s →
        MilliSecondsFromTime now = Double.infinity s) ∧
     (now.ToDoubleT = Double.nan → MilliSecondsFromTime now = Double.nan)) ∧
    (DispatchOnBeforeNavigate k names env now web_contents render_process_id frame_id
        is_main_frame parent_frame_id parent_is_main_frame url log
      = DispatchEvent env web_contents.GetBrowserContext names.OnBeforeNavigate
          [Value.dictionary (DispatchOnBeforeNavigate_dict k now web_contents render_process_id
            frame_id is_main_frame parent_frame_id parent_is_main_frame url)] url log ∧
     (∀ profile router, env.FromBrowserContext web_contents.GetBrowserContext = some profile →
        env.event_router profile = some router →
        DispatchOnBeforeNavigate k names env now web_contents render_process_id frame_id
        is_main_frame parent_frame_id parent_is_main_frame url log
          = log ++ [(router,
              { event_name := names.OnBeforeNavigate,
                event_args := [Value.dictionary
                  (DispatchOnBeforeNavigate_dict k now web_contents render_process_id
            frame_id is_main_frame parent_frame_id parent_is_main_frame url)],
                restrict_to_browser_context := some profile,
                filter_info := { url := some url } })]) ∧
     DictionaryValue.Get (DispatchOnBeforeNavigate_dict k now web_contents render_process_id
            frame_id is_main_frame parent_frame_id parent_is_main_frame url) k.kTimeStampKey
      = some (Value.double (MilliSecondsFromTime now))) ∧
    (DispatchOnCommitted k pt env now event_name web_contents frame_id is_main_frame url
        transition_type log
      = DispatchEvent env web_contents.GetBrowserContext event_name
          [Value.dictionary (DispatchOnCommitted_dict k pt now web_contents frame_id
            is_main_frame url transition_type)] url log ∧
     (∀ profile router, env.FromBrowserContext web_contents.GetBrowserContext = some profile →
        env.event_router profile = some router →
        DispatchOnCommitted k pt env now event_name web_contents frame_id is_main_frame url
        transition_type log
          = log ++ [(router,
              { event_name := event_name,
                event_args := [Value.dictionary
                  (DispatchOnCommitted_dict k pt now web_contents frame_id
            is_main_frame url transition_type)],
                restrict_to_browser_context := some profile,
                filter_info := { url := some url } })]) ∧
     DictionaryValue.Get (DispatchOnCommitted_dict k pt now web_contents frame_id
            is_main_frame url transition_type) k.kTimeStampKey
      = some (Value.double (MilliSecondsFromTime now))) ∧
    (DispatchOnDOMContentLoaded k names env now web_contents url is_main_frame frame_id log
      = DispatchEvent env web_contents.GetBrowserContext names.OnDOMContentLoaded
          [Value.dictionary (DispatchOnDOMContentLoaded_dict k now web_contents url
            is_main_frame frame_id)] url log ∧
     (∀ profile router, env.FromBrowserContext web_contents.GetBrowserContext = some profile →
        env.event_router profile = some router →
        DispatchOnDOMContentLoaded k names env now web_contents url is_main_frame frame_id log
          = log ++ [(router,
              { event_name := names.OnDOMContentLoaded,
                event_args := [Value.dictionary
                  (DispatchOnDOMContentLoaded_dict k now web_contents url
            is_main_frame frame_id)],
                restrict_to_browser_context := some profile,
                filter_info := { url := some url } })]) ∧
     DictionaryValue.Get (DispatchOnDOMContentLoaded_dict k now web_contents url
            is_main_frame frame_id) k.kTimeStampKey
      = some (Value.double (MilliSecondsFromTime now))) ∧
    (DispatchOnCompleted k names env now web_contents url is_main_frame frame_id log
      = DispatchEvent env web_contents.GetBrowserContext names.OnCompleted
          [Value.dictionary (DispatchOnCompleted_dict k now web_contents url
            is_main_frame frame_id)] url log ∧
     (∀ profile router, env.FromBrowserContext web_contents.GetBrowserContext = some profile →
        env.event_router profile = some router →
        DispatchOnCompleted k names env now web_contents url is_main_frame frame_id log
          = log ++ [(router,
              { event_name := names.OnCompleted,
                event_args := [Value.dictionary
                  (DispatchOnCompleted_dict k now web_contents url
            is_main_frame frame_id)],
                restrict_to_browser_context := some profile,
                filter_info := { url := some url } })]) ∧
     DictionaryValue.Get (DispatchOnCompleted_dict k now web_contents url
            is_main_frame frame_id) k.kTimeStampKey
      = some (Value.double (MilliSecondsFromTime now))) ∧
    (DispatchOnCreatedNavigationTarget k names env now web_contents browser_context
        source_frame_id source_frame_is_main_frame target_web_contents target_url log
      = DispatchEvent env browser_context names.OnCreatedNavigationTarget
          [Value.dictionary (DispatchOnCreatedNavigationTarget_dict k now web_contents
            source_frame_id source_frame_is_main_frame target_web_contents target_url)] target_url log ∧
     (∀ profile router, env.FromBrowserContext browser_context = some profile →
        env.event_router profile = some router →
        DispatchOnCreatedNavigationTarget k names env now web_contents browser_context
        source_frame_id source_frame_is_main_frame target_web_contents target_url log
          = log ++ [(router,
              { event_name := names.OnCreatedNavigationTarget,
                event_args := [Value.dictionary
                  (DispatchOnCreatedNavigationTarget_dict k now web_contents
            source_frame_id source_frame_is_main_frame target_web_contents target_url)],
                restrict_to_browser_context := some profile,
                filter_info := { url := some target_url } })]) ∧
     DictionaryValue.Get (DispatchOnCreatedNavigationTarget_dict k now web_contents
            source_frame_id source_frame_is_main_frame target_web_contents target_url) k.kTimeStampKey
      = some (Value.double (MilliSecondsFromTime now))) ∧
    (DispatchOnErrorOccurred k names ErrorToString env now web_contents render_process_id url
        frame_id is_main_frame error_code log
      = DispatchEvent env web_contents.GetBrowserContext names.OnErrorOccurred
          [Value.dictionary (DispatchOnErrorOccurred_dict k ErrorToString now web_contents
            render_process_id url frame_id is_main_frame error_code)] url log ∧
     (∀ profile router, env.FromBrowserContext web_contents.GetBrowserContext = some profile →
        env.event_router profile = some router →
        DispatchOnErrorOccurred k names ErrorToString env now web_contents render_process_id url
        frame_id is_main_frame error_code log
          = log ++ [(router,
              { event_name := names.OnErrorOccurred,
                event_args := [Value.dictionary
                  (DispatchOnErrorOccurred_dict k ErrorToString now web_contents
            render_process_id url frame_id is_main_frame error_code)],
                restrict_to_browser_context := some profile,
                filter_info := { url := some url } })]) ∧
     DictionaryValue.Get (DispatchOnErrorOccurred_dict k ErrorToString now web_contents
            render_process_id url frame_id is_main_frame error_code) k.kTimeStampKey
      = some (Value.double (MilliSecondsFromTime now))) ∧
    (DispatchOnTabReplaced k names env now old_web_contents browser_context new_web_contents log
      = DispatchEvent env browser_context names.OnTabReplaced
          [Value.dictionary (DispatchOnTabReplaced_dict k now old_web_contents
            new_web_contents)] GURL.empty log ∧
     (∀ profile router, env.FromBrowserContext browser_context = some profile →
        env.event_router profile = some router →
        DispatchOnTabReplaced k names env now old_web_contents browser_context new_web_contents log
          = log ++ [(router,
              { event_name := names.OnTabReplaced,
                event_args := [Value.dictionary
                  (DispatchOnTabReplaced_dict k now old_web_contents
            new_web_contents)],
                restrict_to_browser_context := some profile,
                filter_info := { url := some GURL.empty } })]) ∧
     DictionaryValue.Get (DispatchOnTabReplaced_dict k now old_web_contents
            new_web_contents) k.kTimeStampKey
      = some (Value.double (MilliSecondsFromTime now))) := by
  refine ⟨⟨?_, ?_, ?_, ?_⟩, ?_, ?_, ?_, ?_, ?_, ?_, ?_⟩
  · unfold MilliSecondsFromTime
    rw [Double.ofInt_thousand]
  · intro s m h hm
    rw [MilliSecondsFromTime_finite now s m h]
    have hq : (0 : ℚ) ≤ 1000 * m := by positivity
    exact ⟨fun hmag => Double.round_of_isMagnitude s _ hmag,
      fun hle => Double.round_finite_of_le_max s _ hq hle,
      Double.round_finite_or_infinity s _ hq⟩
  · intro s h
    unfold MilliSecondsFromTime
    rw [Double.ofInt_thousand, h]
    simp [Double.mul]
  · intro h
    unfold MilliSecondsFromTime
    rw [Double.ofInt_thousand, h]
    simp [Double.mul]
  · refine ⟨rfl, fun profile router hp hr => DispatchEvent_of_router _ _ _ _ _ _ _ _ hp hr, ?_⟩
    simp [DispatchOnBeforeNavigate_dict, DictionaryValue.SetDouble, DictionaryValue.Get_Set]
  · refine ⟨rfl, fun profile router hp hr => DispatchEvent_of_router _ _ _ _ _ _ _ _ hp hr, ?_⟩
    simp [DispatchOnCommitted_dict, DictionaryValue.SetDouble, DictionaryValue.Get_Set]
  · refine ⟨rfl, fun profile router hp hr => DispatchEvent_of_router _ _ _ _ _ _ _ _ hp hr, ?_⟩
    simp [DispatchOnDOMContentLoaded_dict, DictionaryValue.SetDouble, DictionaryValue.Get_Set]
  · refine ⟨rfl, fun profile router hp hr => DispatchEvent_of_router _ _ _ _ _ _ _ _ hp hr, ?_⟩
    simp [DispatchOnCompleted_dict, DictionaryValue.SetDouble, DictionaryValue.Get_Set]
  · refine ⟨rfl, fun profile router hp hr => DispatchEvent_of_router _ _ _ _ _ _ _ _ hp hr, ?_⟩
    simp [DispatchOnCreatedNavigationTarget_dict, DictionaryValue.SetDouble, DictionaryValue.Get_Set]
  · refine ⟨rfl, fun profile router hp hr => DispatchEvent_of_router _ _ _ _ _ _ _ _ hp hr, ?_⟩
    simp [DispatchOnErrorOccurred_dict, DictionaryValue.SetDouble, DictionaryValue.Get_Set]
  · refine ⟨rfl, fun profile router hp hr => DispatchEvent_of_router _ _ _ _ _ _ _ _ hp hr, ?_⟩
    simp [DispatchOnTabReplaced_dict, DictionaryValue.SetDouble, DictionaryValue.Get_Set]

/-- The time stamp of C6 at concrete times: for the double nearest to
1700000000.123456 the record of DispatchOnTabReplaced holds 1740800000126419 / 1024,
the product rounded; for the double nearest to 0.1 that of DispatchOnCompleted holds
100.0; and for 1700000000 seconds the product is 1700000000000, which is exact. -/
theorem dispatch_args_and_time_stamp_witness :
    DictionaryValue.Get (DispatchOnTabReplaced_dict webNavigationKeys ⟨sampleClock⟩
        ⟨3, 7, ⟨0⟩⟩ ⟨4, 8, ⟨0⟩⟩) "timeStamp"
      = some (Value.double (Double.finite false (1740800000126419 / 1024))) ∧
    DictionaryValue.Get (DispatchOnCompleted_dict webNavigationKeys ⟨sampleTenth⟩
        ⟨3, 7, ⟨0⟩⟩ ⟨"http://a/", "http://a/"⟩ true 0) "timeStamp"
      = some (Value.double (Double.finite false 100)) ∧
    MilliSecondsFromTime ⟨Double.finite false 1700000000⟩
      = Double.finite false 1700000000000 := by
  refine ⟨?_, ?_, ?_⟩
  · have h := (dispatch_args_and_time_stamp webNavigationKeys ⟨"", "", "", "", "", ""⟩
      samplePageTransitionTypes (fun _ => "") ⟨fun _ => none, fun _ => none⟩ ⟨sampleClock⟩ ""
      ⟨3, 7, ⟨0⟩⟩ ⟨3, 7, ⟨0⟩⟩ ⟨3, 7, ⟨0⟩⟩ ⟨4, 8, ⟨0⟩⟩ ⟨0⟩ 0 0 ⟨"http://a/", "http://a/"⟩
      ⟨"http://a/", "http://a/"⟩ 0 0 0 0 true true true []).2.2.2.2.2.2.2.2.2
    rw [MilliSecondsFromTime_clock] at h
    exact h
  · have h := (dispatch_args_and_time_stamp webNavigationKeys ⟨"", "", "", "", "", ""⟩
      samplePageTransitionTypes (fun _ => "") ⟨fun _ => none, fun _ => none⟩ ⟨sampleTenth⟩ ""
      ⟨3, 7, ⟨0⟩⟩ ⟨3, 7, ⟨0⟩⟩ ⟨3, 7, ⟨0⟩⟩ ⟨3, 7, ⟨0⟩⟩ ⟨0⟩ 0 0 ⟨"http://a/", "http://a/"⟩
      ⟨"http://a/", "http://a/"⟩ 0 0 0 0 true true true []).2.2.2.2.1.2.2
    rw [MilliSecondsFromTime_tenth] at h
    exact h
  · have h := ((dispatch_args_and_time_stamp webNavigationKeys ⟨"", "", "", "", "", ""⟩
      samplePageTransitionTypes (fun _ => "") ⟨fun _ => none, fun _ => none⟩
      ⟨Double.finite false 1700000000⟩ ""
      ⟨3, 7, ⟨0⟩⟩ ⟨3, 7, ⟨0⟩⟩ ⟨3, 7, ⟨0⟩⟩ ⟨3, 7, ⟨0⟩⟩ ⟨0⟩ 0 0 ⟨"http://a/", "http://a/"⟩
      ⟨"http://a/", "http://a/"⟩ 0 0 0 0 true true true []).1.2.1
      false 1700000000 rfl (by norm_num)).1
      ⟨1700000000000, 0, by norm_num, by norm_num, by norm_num, by norm_num⟩
    norm_num at h
    exact h

/-! ## The transition type and qualifiers of onCommitted -/

/-- C7: the transitionType field of the DispatchOnCommitted record is "start_page"
when the transition stripped of its qualifiers is PAGE_TRANSITION_AUTO_TOPLEVEL, and
the core transition string otherwise; so "auto_toplevel" is not emitted for an
AUTO_TOPLEVEL transition whatever its qualifier bits are, and, as long as
"start_page" is not itself the core string of the transition, the field is
"start_page" exactly in the AUTO_TOPLEVEL case. -/
theorem committed_transition_type (k : Keys) (hk : k.WellFormed) (pt : PageTransitionTypes)
    (now : Time) (web_contents : WebContents) (frame_id : Int) (is_main_frame : Bool)
    (url : GURL) (transition_type : Nat) :
    DictionaryValue.Get (DispatchOnCommitted_dict k pt now web_contents frame_id is_main_frame
        url transition_type) k.kTransitionTypeKey
      = some (Value.string
          (if pt.PageTransitionStripQualifier transition_type = pt.PAGE_TRANSITION_AUTO_TOPLEVEL
           then "start_page"
           else pt.PageTransitionGetCoreTransitionString transition_type)) ∧
    (pt.PageTransitionStripQualifier transition_type = pt.PAGE_TRANSITION_AUTO_TOPLEVEL →
      DictionaryValue.Get (DispatchOnCommitted_dict k pt now web_contents frame_id
          is_main_frame url transition_type) k.kTransitionTypeKey
        = some (Value.string "start_page") ∧
      DictionaryValue.Get (DispatchOnCommitted_dict k pt now web_contents frame_id
          is_main_frame url transition_type) k.kTransitionTypeKey
        ≠ some (Value.string "auto_toplevel")) ∧
    (pt.PageTransitionStripQualifier transition_type ≠ pt.PAGE_TRANSITION_AUTO_TOPLEVEL →
      DictionaryValue.Get (DispatchOnCommitted_dict k pt now web_contents frame_id
          is_main_frame url transition_type) k.kTransitionTypeKey
        = some (Value.string (pt.PageTransitionGetCoreTransitionString transition_type))) ∧
    (pt.PageTransitionGetCoreTransitionString transition_type ≠ "start_page" →
      (DictionaryValue.Get (DispatchOnCommitted_dict k pt now web_contents frame_id
          is_main_frame url transition_type) k.kTransitionTypeKey
        = some (Value.string "start_page") ↔
       pt.PageTransitionStripQualifier transition_type = pt.PAGE_TRANSITION_AUTO_TOPLEVEL)) := by
  have hd := hk.distinct
  simp only [Keys.all, List.pairwise_cons, List.mem_cons, List.mem_singleton, forall_eq_or_imp,
    forall_eq, List.not_mem_nil, List.Pairwise.nil] at hd
  have hget : DictionaryValue.Get (DispatchOnCommitted_dict k pt now web_contents frame_id
        is_main_frame url transition_type) k.kTransitionTypeKey
      = some (Value.string
          (if pt.PageTransitionStripQualifier transition_type = pt.PAGE_TRANSITION_AUTO_TOPLEVEL
           then "start_page"
           else pt.PageTransitionGetCoreTransitionString transition_type)) := by
    simp [DispatchOnCommitted_dict, DictionaryValue.SetInteger, DictionaryValue.SetDouble,
      DictionaryValue.SetString, DictionaryValue.Get_Set, hd, DictionaryValue.Get]
  rw [hget]
  refine ⟨rfl, ?_, ?_, ?_⟩
  · intro h
    rw [if_pos h]
    exact ⟨rfl, by simp⟩
  · intro h
    rw [if_neg h]
  · intro hcore
    by_cases h : pt.PageTransitionStripQualifier transition_type
        = pt.PAGE_TRANSITION_AUTO_TOPLEVEL
    · simp [h]
    · simp [h, hcore]

/-- The transition type of C7 on the sample header: AUTO_TOPLEVEL with the
CLIENT_REDIRECT qualifier (0x40000006) is reported as "start_page", and TYPED (1) is not. -/
theorem committed_transition_type_witness :
    webNavigationKeys.WellFormed ∧
    DictionaryValue.Get (DispatchOnCommitted_dict webNavigationKeys samplePageTransitionTypes
        sampleTime ⟨3, 7, ⟨0⟩⟩ 0 true ⟨"http://a/", "http://a/"⟩ 1073741830) "transitionType"
      = some (Value.string "start_page") ∧
    ¬ DictionaryValue.Get (DispatchOnCommitted_dict webNavigationKeys samplePageTransitionTypes
        sampleTime ⟨3, 7, ⟨0⟩⟩ 0 true ⟨"http://a/", "http://a/"⟩ 1) "transitionType"
      = some (Value.string "start_page") :=
  ⟨by decide,
   ((committed_transition_type webNavigationKeys (by decide) samplePageTransitionTypes
      sampleTime ⟨3, 7, ⟨0⟩⟩ 0 true ⟨"http://a/", "http://a/"⟩ 1073741830).2.1 (by decide)).1,
   fun h => absurd
     (((committed_transition_type webNavigationKeys (by decide) samplePageTransitionTypes
        sampleTime ⟨3, 7, ⟨0⟩⟩ 0 true ⟨"http://a/", "http://a/"⟩ 1).2.2.2
        (sampleCoreTransitionString_ne_start_page 1)).mp h)
     (by decide)⟩

/-- C8: the transitionQualifiers list of the DispatchOnCommitted record consists of
those of "client_redirect", "server_redirect", "forward_back", "from_address_bar"
whose mask (CLIENT_REDIRECT, SERVER_REDIRECT, FORWARD_BACK, FROM_ADDRESS_BAR) has a
bit in common with transition_type, in this order: a sub-sequence of the four names
without duplicates, of at most four entries, and empty exactly when none of the four
tests succeeds. Where a mask is the single bit i, its name is in the list exactly
when bit i of transition_type is set. -/
theorem committed_transition_qualifiers (k : Keys) (hk : k.WellFormed)
    (pt : PageTransitionTypes) (now : Time) (web_contents : WebContents) (frame_id : Int)
    (is_main_frame : Bool) (url : GURL) (transition_type : Nat) :
    DictionaryValue.Get (DispatchOnCommitted_dict k pt now web_contents frame_id is_main_frame
        url transition_type) k.kTransitionQualifiersKey
      = some (Value.list (DispatchOnCommitted_qualifiers pt transition_type)) ∧
    DispatchOnCommitted_qualifiers pt transition_type
      = ((([(pt.PAGE_TRANSITION_CLIENT_REDIRECT, "client_redirect"),
            (pt.PAGE_TRANSITION_SERVER_REDIRECT, "server_redirect"),
            (pt.PAGE_TRANSITION_FORWARD_BACK, "forward_back"),
            (pt.PAGE_TRANSITION_FROM_ADDRESS_BAR, "from_address_bar")] : List (Nat × String)).filter
          (fun q => decide (transition_type &&& q.1 ≠ 0))).map (fun q => Value.string q.2)) ∧
    List.Sublist (DispatchOnCommitted_qualifiers pt transition_type)
      [Value.string "client_redirect", Value.string "server_redirect",
       Value.string "forward_back", Value.string "from_address_bar"] ∧
    (DispatchOnCommitted_qualifiers pt transition_type).Nodup ∧
    (DispatchOnCommitted_qualifiers pt transition_type).length ≤ 4 ∧
    (DispatchOnCommitted_qualifiers pt transition_type = [] ↔
      (transition_type &&& pt.PAGE_TRANSITION_CLIENT_REDIRECT = 0 ∧
       transition_type &&& pt.PAGE_TRANSITION_SERVER_REDIRECT = 0 ∧
       transition_type &&& pt.PAGE_TRANSITION_FORWARD_BACK = 0 ∧
       transition_type &&& pt.PAGE_TRANSITION_FROM_ADDRESS_BAR = 0)) ∧
    ((Value.string "client_redirect" ∈ DispatchOnCommitted_qualifiers pt transition_type ↔
        transition_type &&& pt.PAGE_TRANSITION_CLIENT_REDIRECT ≠ 0) ∧
     (Value.string "server_redirect" ∈ DispatchOnCommitted_qualifiers pt transition_type ↔
        transition_type &&& pt.PAGE_TRANSITION_SERVER_REDIRECT ≠ 0) ∧
     (Value.string "forward_back" ∈ DispatchOnCommitted_qualifiers pt transition_type ↔
        transition_type &&& pt.PAGE_TRANSITION_FORWARD_BACK ≠ 0) ∧
     (Value.string "from_address_bar" ∈ DispatchOnCommitted_qualifiers pt transition_type ↔
        transition_type &&& pt.PAGE_TRANSITION_FROM_ADDRESS_BAR ≠ 0)) ∧
    (∀ i : Nat,
      (pt.PAGE_TRANSITION_CLIENT_REDIRECT = 2 ^ i →
        (Value.string "client_redirect" ∈ DispatchOnCommitted_qualifiers pt transition_type ↔
          transition_type.testBit i = true)) ∧
      (pt.PAGE_TRANSITION_SERVER_REDIRECT = 2 ^ i →
        (Value.string "server_redirect" ∈ DispatchOnCommitted_qualifiers pt transition_type ↔
          transition_type.testBit i = true)) ∧
      (pt.PAGE_TRANSITION_FORWARD_BACK = 2 ^ i →
        (Value.string "forward_back" ∈ DispatchOnCommitted_qualifiers pt transition_type ↔
          transition_type.testBit i = true)) ∧
      (pt.PAGE_TRANSITION_FROM_ADDRESS_BAR = 2 ^ i →
        (Value.string "from_address_bar" ∈ DispatchOnCommitted_qualifiers pt transition_type ↔
          transition_type.testBit i = true))) := by
  have hd := hk.distinct
  simp only [Keys.all, List.pairwise_cons, List.mem_cons, List.mem_singleton, forall_eq_or_imp,
    forall_eq, List.not_mem_nil, List.Pairwise.nil] at hd
  have hmem : (Value.string "client_redirect" ∈ DispatchOnCommitted_qualifiers pt transition_type
        ↔ transition_type &&& pt.PAGE_TRANSITION_CLIENT_REDIRECT ≠ 0) ∧
      (Value.string "server_redirect" ∈ DispatchOnCommitted_qualifiers pt transition_type ↔
        transition_type &&& pt.PAGE_TRANSITION_SERVER_REDIRECT ≠ 0) ∧
      (Value.string "forward_back" ∈ DispatchOnCommitted_qualifiers pt transition_type ↔
        transition_type &&& pt.PAGE_TRANSITION_FORWARD_BACK ≠ 0) ∧
      (Value.string "from_address_bar" ∈ DispatchOnCommitted_qualifiers pt transition_type ↔
        transition_type &&& pt.PAGE_TRANSITION_FROM_ADDRESS_BAR ≠ 0) := by
    unfold DispatchOnCommitted_qualifiers
    by_cases h1 : transition_type &&& pt.PAGE_TRANSITION_CLIENT_REDIRECT = 0 <;>
    by_cases h2 : transition_type &&& pt.PAGE_TRANSITION_SERVER_REDIRECT = 0 <;>
    by_cases h3 : transition_type &&& pt.PAGE_TRANSITION_FORWARD_BACK = 0 <;>
    by_cases h4 : transition_type &&& pt.PAGE_TRANSITION_FROM_ADDRESS_BAR = 0 <;>
    simp [h1, h2, h3, h4, ListValue.Append]
  refine ⟨?_, ?_, ?_, ?_, ?_, ?_, hmem, ?_⟩
  · simp [DispatchOnCommitted_dict, DictionaryValue.SetInteger, DictionaryValue.SetDouble,
      DictionaryValue.SetString, DictionaryValue.Get_Set, hd, DictionaryValue.Get]
  · unfold DispatchOnCommitted_qualifiers
    by_cases h1 : transition_type &&& pt.PAGE_TRANSITION_CLIENT_REDIRECT = 0 <;>
    by_cases h2 : transition_type &&& pt.PAGE_TRANSITION_SERVER_REDIRECT = 0 <;>
    by_cases h3 : transition_type &&& pt.PAGE_TRANSITION_FORWARD_BACK = 0 <;>
    by_cases h4 : transition_type &&& pt.PAGE_TRANSITION_FROM_ADDRESS_BAR = 0 <;>
    simp [h1, h2, h3, h4, ListValue.Append, List.filter]
  · unfold DispatchOnCommitted_qualifiers
    by_cases h1 : transition_type &&& pt.PAGE_TRANSITION_CLIENT_REDIRECT = 0 <;>
    by_cases h2 : transition_type &&& pt.PAGE_TRANSITION_SERVER_REDIRECT = 0 <;>
    by_cases h3 : transition_type &&& pt.PAGE_TRANSITION_FORWARD_BACK = 0 <;>
    by_cases h4 : transition_type &&& pt.PAGE_TRANSITION_FROM_ADDRESS_BAR = 0 <;>
    simp [h1, h2, h3, h4, ListValue.Append]
  · unfold DispatchOnCommitted_qualifiers
    by_cases h1 : transition_type &&& pt.PAGE_TRANSITION_CLIENT_REDIRECT = 0 <;>
    by_cases h2 : transition_type &&& pt.PAGE_TRANSITION_SERVER_REDIRECT = 0 <;>
    by_cases h3 : transition_type &&& pt.PAGE_TRANSITION_FORWARD_BACK = 0 <;>
    by_cases h4 : transition_type &&& pt.PAGE_TRANSITION_FROM_ADDRESS_BAR = 0 <;>
    simp [h1, h2, h3, h4, ListValue.Append]
  · unfold DispatchOnCommitted_qualifiers
    by_cases h1 : transition_type &&& pt.PAGE_TRANSITION_CLIENT_REDIRECT = 0 <;>
    by_cases h2 : transition_type &&& pt.PAGE_TRANSITION_SERVER_REDIRECT = 0 <;>
    by_cases h3 : transition_type &&& pt.PAGE_TRANSITION_FORWARD_BACK = 0 <;>
    by_cases h4 : transition_type &&& pt.PAGE_TRANSITION_FROM_ADDRESS_BAR = 0 <;>
    simp [h1, h2, h3, h4, ListValue.Append]
  · unfold DispatchOnCommitted_qualifiers
    by_cases h1 : transition_type &&& pt.PAGE_TRANSITION_CLIENT_REDIRECT = 0 <;>
    by_cases h2 : transition_type &&& pt.PAGE_TRANSITION_SERVER_REDIRECT = 0 <;>
    by_cases h3 : transition_type &&& pt.PAGE_TRANSITION_FORWARD_BACK = 0 <;>
    by_cases h4 : transition_type &&& pt.PAGE_TRANSITION_FROM_ADDRESS_BAR = 0 <;>
    simp [h1, h2, h3, h4, ListValue.Append]
  · intro i
    refine ⟨?_, ?_, ?_, ?_⟩
    · intro hm
      rw [hmem.1, hm]
      exact and_two_pow_ne_zero transition_type i
    · intro hm
      rw [hmem.2.1, hm]
      exact and_two_pow_ne_zero transition_type i
    · intro hm
      rw [hmem.2.2.1, hm]
      exact and_two_pow_ne_zero transition_type i
    · intro hm
      rw [hmem.2.2.2, hm]
      exact and_two_pow_ne_zero transition_type i

/-- The qualifiers of C8 on the sample header: TYPED with CLIENT_REDIRECT and
FROM_ADDRESS_BAR (0x42000001) yields the two names, client_redirect first. -/
theorem committed_transition_qualifiers_witness :
    webNavigationKeys.WellFormed ∧
    DictionaryValue.Get (DispatchOnCommitted_dict webNavigationKeys samplePageTransitionTypes
        sampleTime ⟨3, 7, ⟨0⟩⟩ 0 true ⟨"http://a/", "http://a/"⟩ 1107296257) "transitionQualifiers"
      = some (Value.list [Value.string "client_redirect", Value.string "from_address_bar"]) :=
  ⟨by decide,
   (committed_transition_qualifiers webNavigationKeys (by decide) samplePageTransitionTypes
      sampleTime ⟨3, 7, ⟨0⟩⟩ 0 true ⟨"http://a/", "http://a/"⟩ 1107296257).1⟩

/-! ## DispatchEvent -/

/-- C9: a call of DispatchEvent broadcasts one event or none. It broadcasts one exactly
when the browser context resolves to a profile whose extension system has an event
router; the event then goes to that router, carries the given event_name and args
unchanged, is restricted to the profile, and its filter info holds the given url.
Otherwise the broadcasts are as before, and there is no other result. -/
theorem DispatchEvent_broadcasts (env : Browser) (browser_context : BrowserContext)
    (event_name : String) (args : ListValue) (url : GURL) (log : Broadcasts) :
    (DispatchEvent env browser_context event_name args url log = log ∨
     ∃ entry, DispatchEvent env browser_context event_name args url log = log ++ [entry]) ∧
    ((∃ entry, DispatchEvent env browser_context event_name args url log = log ++ [entry]) ↔
     ∃ profile router, env.FromBrowserContext browser_context = some profile ∧
       env.event_router profile = some router) ∧
    (∀ profile router, env.FromBrowserContext browser_context = some profile →
      env.event_router profile = some router →
      DispatchEvent env browser_context event_name args url log
        = log ++ [(router, { event_name := event_name, event_args := args,
                             restrict_to_browser_context := some profile,
                             filter_info := { url := some url } })]) ∧
    ((¬ ∃ profile router, env.FromBrowserContext browser_context = some profile ∧
        env.event_router profile = some router) →
      DispatchEvent env browser_context event_name args url log = log) := by
  have hno : (¬ ∃ profile router, env.FromBrowserContext browser_context = some profile ∧
        env.event_router profile = some router) →
      DispatchEvent env browser_context event_name args url log = log := by
    intro h
    apply DispatchEvent_of_no_router
    intro profile hp
    cases hr : env.event_router profile with
    | none => rfl
    | some router => exact absurd ⟨profile, router, hp, hr⟩ h
  by_cases h : ∃ profile router, env.FromBrowserContext browser_context = some profile ∧
      env.event_router profile = some router
  · obtain ⟨profile, router, hp, hr⟩ := h
    have hyes := DispatchEvent_of_router env browser_context event_name args url log
      profile router hp hr
    refine ⟨Or.inr ⟨_, hyes⟩, ⟨fun _ => ⟨profile, router, hp, hr⟩, fun _ => ⟨_, hyes⟩⟩, ?_, hno⟩
    intro profile' router' hp' hr'
    exact DispatchEvent_of_router env browser_context event_name args url log
      profile' router' hp' hr'
  · have hsame := hno h
    refine ⟨Or.inl hsame, ⟨?_, fun h' => absurd h' h⟩, ?_, hno⟩
    · rintro ⟨entry, he⟩
      rw [hsame] at he
      have hlen := congrArg List.length he
      simp at hlen
    · intro profile router hp hr
      exact absurd ⟨profile, router, hp, hr⟩ h

/-- The broadcast of C9 in a browser whose context 0 is profile 1 with router 2, and
whose other contexts have no profile: the first call appends its event, the second
changes nothing. -/
theorem DispatchEvent_broadcasts_witness :
    DispatchEvent ⟨fun c => if c.id = 0 then some ⟨1⟩ else none, fun _ => some ⟨2⟩⟩ ⟨0⟩
        "webNavigation.onCompleted" [Value.integer 4] ⟨"http://a/", "http://a/"⟩ []
      = [(⟨2⟩, { event_name := "webNavigation.onCompleted", event_args := [Value.integer 4],
                 restrict_to_browser_context := some ⟨1⟩,
                 filter_info := { url := some ⟨"http://a/", "http://a/"⟩ } })] ∧
    DispatchEvent ⟨fun c => if c.id = 0 then some ⟨1⟩ else none, fun _ => some ⟨2⟩⟩ ⟨5⟩
        "webNavigation.onCompleted" [Value.integer 4] ⟨"http://a/", "http://a/"⟩ [] = [] :=
  ⟨(DispatchEvent_broadcasts ⟨fun c => if c.id = 0 then some ⟨1⟩ else none, fun _ => some ⟨2⟩⟩
      ⟨0⟩ "webNavigation.onCompleted" [Value.integer 4] ⟨"http://a/", "http://a/"⟩ []).2.2.1
      ⟨1⟩ ⟨2⟩ rfl rfl,
   (DispatchEvent_broadcasts ⟨fun c => if c.id = 0 then some ⟨1⟩ else none, fun _ => some ⟨2⟩⟩
      ⟨5⟩ "webNavigation.onCompleted" [Value.integer 4] ⟨"http://a/", "http://a/"⟩ []).2.2.2
      (by simp)⟩

end web_navigation_api_helpers
end extensions

namespace webkit_media

/-! ## Lemmas on the plane copy -/

theorem CopyRow_bounds {source target target' : List Nat} {source_offset target_offset n : Nat}
    (h : CopyRow source source_offset target target_offset n = some target') :
    source_offset + n ≤ source.length ∧ target_offset + n ≤ target.length := by
  unfold CopyRow at h
  split at h
  · assumption
  · cases h

theorem CopyRow_length {source target target' : List Nat} {source_offset target_offset n : Nat}
    (h : CopyRow source source_offset target target_offset n = some target') :
    target'.length = target.length := by
  have hb := CopyRow_bounds h
  unfold CopyRow at h
  rw [if_pos hb] at h
  cases h
  simp
  omega

theorem CopyRow_getElem? {source target target' : List Nat} {source_offset target_offset n : Nat}
    (h : CopyRow source source_offset target target_offset n = some target') (j : Nat) :
    target'[j]? =
      if target_offset ≤ j ∧ j < target_offset + n then source[source_offset + (j - target_offset)]?
      else target[j]? := by
  have hb := CopyRow_bounds h
  unfold CopyRow at h
  rw [if_pos hb] at h
  cases h
  by_cases h1 : j < target_offset
  · have : ¬ (target_offset ≤ j ∧ j < target_offset + n) := by omega
    rw [if_neg this, List.append_assoc, List.getElem?_append_left (by simp; omega)]
    simp [List.getElem?_take, h1]
  · by_cases h2 : j < target_offset + n
    · have : target_offset ≤ j ∧ j < target_offset + n := by omega
      rw [if_pos this, List.append_assoc, List.getElem?_append_right (by simp; omega),
        List.getElem?_append_left (by simp; omega)]
      simp [List.getElem?_take, List.getElem?_drop]
      have hl : min target_offset target.length = target_offset := by omega
      rw [hl]
      simp [show j - target_offset < n by omega]
    · have : ¬ (target_offset ≤ j ∧ j < target_offset + n) := by omega
      rw [if_neg this, List.getElem?_append_right (by simp; omega)]
      simp [List.getElem?_drop]
      congr 1
      omega

theorem CopyRows_spec (source : List Nat) (source_stride target_stride w : Nat) :
    ∀ (remaining row : Nat) (target target' : List Nat),
      CopyRows source source_stride target_stride w remaining row target = some target' →
      target'.length = target.length ∧
      (∀ r, row ≤ r → r < row + remaining →
        r * source_stride + w ≤ source.length ∧ r * target_stride + w ≤ target.length) ∧
      (∀ j, (∀ r, row ≤ r → r < row + remaining →
          ¬ (r * target_stride ≤ j ∧ j < r * target_stride + w)) →
        target'[j]? = target[j]?) ∧
      (w ≤ target_stride → ∀ r, row ≤ r → r < row + remaining → ∀ c, c < w →
        target'[r * target_stride + c]? = source[r * source_stride + c]?) := by
  intro remaining
  induction remaining with
  | zero =>
    intro row target target' h
    simp only [CopyRows, Option.some.injEq] at h
    subst h
    refine ⟨rfl, ?_, ?_, ?_⟩
    · intro r h1 h2
      omega
    · intro j _
      rfl
    · intro _ r h1 h2
      omega
  | succ n ih =>
    intro row target target' h
    rw [CopyRows] at h
    cases hrow : CopyRow source (row * source_stride) target (row * target_stride) w with
    | none => simp [hrow] at h
    | some t1 =>
      rw [hrow] at h
      simp only at h
      obtain ⟨hlen, hbounds, hkeep, hcopy⟩ := ih (row + 1) t1 target' h
      have hb1 := CopyRow_bounds hrow
      have hl1 := CopyRow_length hrow
      have hg1 := CopyRow_getElem? hrow
      refine ⟨by omega, ?_, ?_, ?_⟩
      · intro r h1 h2
        by_cases hr : r = row
        · subst hr
          exact hb1
        · have := hbounds r (by omega) (by omega)
          omega
      · intro j hj
        rw [hkeep j (fun r h1 h2 => hj r (by omega) (by omega)), hg1 j,
          if_neg (hj row (Nat.le_refl _) (by omega))]
      · intro hw r h1 h2 c hc
        by_cases hr : r = row
        · subst hr
          have hfree : ∀ r', r + 1 ≤ r' → r' < r + 1 + n →
              ¬ (r' * target_stride ≤ r * target_stride + c ∧
                r * target_stride + c < r' * target_stride + w) := by
            intro r' h1' _
            have hmul : (r + 1) * target_stride ≤ r' * target_stride :=
              Nat.mul_le_mul_right _ h1'
            rw [Nat.add_mul, Nat.one_mul] at hmul
            omega
          rw [hkeep _ hfree, hg1,
            if_pos ⟨Nat.le_add_right _ _, by omega⟩, Nat.add_sub_cancel_left]
        · exact hcopy hw r (by omega) (by omega) c hc

theorem CopyRows_succeeds (source : List Nat) (source_stride target_stride w : Nat) :
    ∀ (remaining row : Nat) (target : List Nat),
      (∀ r, row ≤ r → r < row + remaining →
        r * source_stride + w ≤ source.length ∧ r * target_stride + w ≤ target.length) →
      ∃ target', CopyRows source source_stride target_stride w remaining row target
        = some target' := by
  intro remaining
  induction remaining with
  | zero =>
    intro row target _
    exact ⟨target, rfl⟩
  | succ n ih =>
    intro row target hfit
    have hrow := hfit row (Nat.le_refl _) (by omega)
    have hstep : CopyRow source (row * source_stride) target (row * target_stride) w
        = some (target.take (row * target_stride) ++
            (source.drop (row * source_stride)).take w ++
            target.drop (row * target_stride + w)) := by
      unfold CopyRow
      rw [if_pos hrow]
    have hlen := CopyRow_length hstep
    obtain ⟨target', h'⟩ := ih (row + 1) _ (fun r h1 h2 => by
      have := hfit r (by omega) (by omega)
      rw [hlen]
      exact this)
    refine ⟨target', ?_⟩
    rw [CopyRows, hstep]
    exact h'

theorem CopyPlane_rows {source target target' : List Nat}
    {source_stride target_stride rows w : Nat}
    (h : CopyPlane source source_stride target_stride rows w target = some target')
    (hw : w ≤ target_stride) (r : Nat) (hr : r < rows) :
    r * source_stride + w ≤ source.length ∧ r * target_stride + w ≤ target'.length ∧
    (target'.drop (r * target_stride)).take w = (source.drop (r * source_stride)).take w := by
  obtain ⟨hlen, hbounds, _, hcopy⟩ := CopyRows_spec source source_stride target_stride w rows 0
    target target' h
  have hb := hbounds r (Nat.zero_le _) (by omega)
  refine ⟨hb.1, by omega, ?_⟩
  apply List.ext_getElem?
  intro c
  by_cases hc : c < w
  · simp [List.getElem?_take, hc, List.getElem?_drop]
    exact hcopy hw r (Nat.zero_le _) (by omega) c hc
  · simp [List.getElem?_take, hc]

theorem CopyPlanes_spec (layout : PlaneLayout) (format : VideoFormat) (width height : Nat) :
    ∀ (sources targets : List Plane) (index : Nat) (planes : List Plane),
      CopyPlanes layout format width height index sources targets = some planes →
      planes.length = sources.length ∧ targets.length = sources.length ∧
      ∀ p source_plane target_plane, sources[p]? = some source_plane →
        targets[p]? = some target_plane →
        ∃ plane, planes[p]? = some plane ∧ plane.stride = target_plane.stride ∧
          CopyPlane source_plane.data source_plane.stride target_plane.stride
            (layout.rows format (index + p) height) (layout.row_bytes format (index + p) width)
            target_plane.data = some plane.data := by
  intro sources
  induction sources with
  | nil =>
    intro targets index planes h
    cases targets with
    | nil =>
      simp only [CopyPlanes, Option.some.injEq] at h
      subst h
      simp
    | cons t ts => simp [CopyPlanes] at h
  | cons s ss ih =>
    intro targets index planes h
    cases targets with
    | nil => simp [CopyPlanes] at h
    | cons t ts =>
      rw [CopyPlanes] at h
      cases hplane : CopyPlane s.data s.stride t.stride (layout.rows format index height)
          (layout.row_bytes format index width) t.data with
      | none => simp [hplane] at h
      | some data =>
        rw [hplane] at h
        simp only at h
        cases hrest : CopyPlanes layout format width height (index + 1) ss ts with
        | none => simp [hrest] at h
        | some rest =>
          rw [hrest] at h
          simp only [Option.some.injEq] at h
          subst h
          obtain ⟨hl1, hl2, hall⟩ := ih ts (index + 1) rest hrest
          refine ⟨by simp [hl1], by simp [hl2], ?_⟩
          intro p source_plane target_plane hs ht
          cases p with
          | zero =>
            simp only [List.getElem?_cons_zero, Option.some.injEq] at hs ht
            subst hs ht
            refine ⟨{ data := data, stride := t.stride }, by simp, rfl, ?_⟩
            simpa using hplane
          | succ q =>
            simp only [List.getElem?_cons_succ] at hs ht
            obtain ⟨plane, h1, h2, h3⟩ := hall q source_plane target_plane hs ht
            refine ⟨plane, by simpa using h1, h2, ?_⟩
            have hidx : index + (q + 1) = index + 1 + q := by omega
            rw [hidx]
            exact h3

/-! ## Initialize -/

/-- C4: when IsValidOutputConfig(format, size) is false for the format and coded size
of a config, Initialize with that config returns false and leaves the session in the
Error state, so that is_initialized() is false afterwards; it does not report success,
whatever the engine and the state before the call are. -/
theorem Initialize_rejects_invalid_output_config
    (IsValidOutputConfig : VideoFormat → Size → Bool) (configure : Nat → List Nat → Bool)
    (self : FFmpegCdmVideoDecoder) (config : VideoDecoderConfig)
    (h : IsValidOutputConfig config.format config.coded_size = false) :
    (FFmpegCdmVideoDecoder.Initialize IsValidOutputConfig configure self config).1 = false ∧
    (FFmpegCdmVideoDecoder.Initialize IsValidOutputConfig configure self config).2.state
      = SessionState.Error ∧
    (FFmpegCdmVideoDecoder.Initialize IsValidOutputConfig configure self config).2.is_initialized
      = false ∧
    (FFmpegCdmVideoDecoder.Initialize IsValidOutputConfig configure self config).1 ≠ true := by
  simp [FFmpegCdmVideoDecoder.Initialize, h, FFmpegCdmVideoDecoder.is_initialized]

/-- The rejection of C4 for a table that accepts format 1 at even sizes only: a 3x2
request is refused, also on a decoder that was initialized before and with an engine
that would accept the codec. -/
theorem Initialize_rejects_invalid_output_config_witness :
    (FFmpegCdmVideoDecoder.Initialize
        (fun format size => decide (format = 1 ∧ size.width % 2 = 0 ∧ size.height % 2 = 0))
        (fun _ _ => true) { state := SessionState.Initialized }
        { codec := 2, coded_size := ⟨3, 2⟩, format := 1, extra_data := [] }).1 = false ∧
    (FFmpegCdmVideoDecoder.Initialize
        (fun format size => decide (format = 1 ∧ size.width % 2 = 0 ∧ size.height % 2 = 0))
        (fun _ _ => true) { state := SessionState.Initialized }
        { codec := 2, coded_size := ⟨3, 2⟩, format := 1, extra_data := [] }).2.state
      = SessionState.Error :=
  ⟨(Initialize_rejects_invalid_output_config
      (fun format size => decide (format = 1 ∧ size.width % 2 = 0 ∧ size.height % 2 = 0))
      (fun _ _ => true) { state := SessionState.Initialized }
      { codec := 2, coded_size := ⟨3, 2⟩, format := 1, extra_data := [] } (by decide)).1,
   (Initialize_rejects_invalid_output_config
      (fun format size => decide (format = 1 ∧ size.width % 2 = 0 ∧ size.height % 2 = 0))
      (fun _ _ => true) { state := SessionState.Initialized }
      { codec := 2, coded_size := ⟨3, 2⟩, format := 1, extra_data := [] } (by decide)).2.1⟩

/-! ## CopyAvFrameTo -/

/-- C5: CopyAvFrameTo returns true only when the allocation and the copy of every plane
succeeded, and the copy is stride-correct: in every plane, for every row r below the
plane height, whenever the destination stride is at least the tight row width w (so
for every stride strictly greater than w), the w bytes of the destination plane from
r * dstStride on are the w bytes of the source plane from r * srcStride on, both
within their buffers, whether or not the two strides are equal. -/
theorem CopyAvFrameTo_stride_correct (allocator : Allocator) (layout : PlaneLayout)
    (av_frame_ : AVFrame) (cdm_video_frame : VideoFrame)
    (h : (FFmpegCdmVideoDecoder.CopyAvFrameTo allocator layout av_frame_ cdm_video_frame).1
      = true) :
    ∃ buffer, allocator av_frame_.format av_frame_.width av_frame_.height = some buffer ∧
      CopyPlanes layout av_frame_.format av_frame_.width av_frame_.height 0 av_frame_.planes
          buffer
        = some (FFmpegCdmVideoDecoder.CopyAvFrameTo allocator layout av_frame_
            cdm_video_frame).2.planes ∧
      ∀ p source_plane target_plane, av_frame_.planes[p]? = some source_plane →
        buffer[p]? = some target_plane →
        ∃ plane,
          (FFmpegCdmVideoDecoder.CopyAvFrameTo allocator layout av_frame_
            cdm_video_frame).2.planes[p]? = some plane ∧
          plane.stride = target_plane.stride ∧
          (layout.row_bytes av_frame_.format p av_frame_.width ≤ plane.stride →
            ∀ r, r < layout.rows av_frame_.format p av_frame_.height →
              r * source_plane.stride + layout.row_bytes av_frame_.format p av_frame_.width
                ≤ source_plane.data.length ∧
              r * plane.stride + layout.row_bytes av_frame_.format p av_frame_.width
                ≤ plane.data.length ∧
              (plane.data.drop (r * plane.stride)).take
                  (layout.row_bytes av_frame_.format p av_frame_.width)
                = (source_plane.data.drop (r * source_plane.stride)).take
                  (layout.row_bytes av_frame_.format p av_frame_.width)) := by
  unfold FFmpegCdmVideoDecoder.CopyAvFrameTo at h ⊢
  cases halloc : allocator av_frame_.format av_frame_.width av_frame_.height with
  | none => simp [halloc] at h
  | some buffer =>
    cases hcopy : CopyPlanes layout av_frame_.format av_frame_.width av_frame_.height 0
        av_frame_.planes buffer with
    | none => simp [halloc, hcopy] at h
    | some planes =>
      refine ⟨buffer, rfl, by simp [hcopy], ?_⟩
      intro p source_plane target_plane hs ht
      obtain ⟨_, _, hall⟩ := CopyPlanes_spec layout av_frame_.format av_frame_.width
        av_frame_.height av_frame_.planes buffer 0 planes hcopy
      obtain ⟨plane, h1, h2, h3⟩ := hall p source_plane target_plane hs ht
      rw [Nat.zero_add] at h3
      refine ⟨plane, by simp [hcopy, h1], h2, ?_⟩
      intro hw r hr
      rw [h2] at hw ⊢
      exact CopyPlane_rows h3 hw r hr

/-- The copy of C5 on the sample picture: source stride 3, destination stride 4, row
width 2; the call succeeds and the second row of the result holds the bytes 4 5 of
the second source row. -/
theorem CopyAvFrameTo_stride_correct_witness :
    (FFmpegCdmVideoDecoder.CopyAvFrameTo sampleAllocator sampleLayout samplePicture
      sampleFrame).1 = true ∧
    ∃ plane,
      (FFmpegCdmVideoDecoder.CopyAvFrameTo sampleAllocator sampleLayout samplePicture
        sampleFrame).2.planes[0]? = some plane ∧
      plane.stride = 4 ∧
      (plane.data.drop (1 * plane.stride)).take 2 = [4, 5] := by
  have h : (FFmpegCdmVideoDecoder.CopyAvFrameTo sampleAllocator sampleLayout samplePicture
      sampleFrame).1 = true := by decide
  obtain ⟨buffer, hb, _, hall⟩ := CopyAvFrameTo_stride_correct sampleAllocator sampleLayout
    samplePicture sampleFrame h
  have hbuf : buffer = [⟨[0, 0, 0, 0, 0, 0, 0, 0], 4⟩] := by
    simpa [sampleAllocator] using hb.symm
  subst hbuf
  obtain ⟨plane, h1, h2, h3⟩ := hall 0 ⟨[1, 2, 3, 4, 5, 6], 3⟩ ⟨[0, 0, 0, 0, 0, 0, 0, 0], 4⟩
    rfl rfl
  have h4 := (h3 (by rw [h2]; decide) 1 (by decide)).2.2
  exact ⟨h, plane, h1, h2, h4⟩

end webkit_media
